import Mathlib

/-!
# sovereign-checker: scoring and planning engine

A shallow embedding of the pure decision logic of the repository
(`btc.EstimateSweepFee`, the loop of `btc.UTXOsForAddress`, `score.CountDust`,
`score.Compute`, `planner.Decide`, `ln.ComputeReadiness`, `api.sovereigntySummary`)
together with theorems about it.

Conventions of the embedding:

* Go `uint64` values are natural numbers; every `uint64` addition and
  multiplication of the source is followed by an explicit `% 2 ^ 64`.
* Go `int` values are integers (a 64-bit `int` is assumed).  The only `int`
  arithmetic that can leave the 64-bit range is the size computation inside
  `EstimateSweepFee`, whose conversion to `uint64` is modelled by `% 2 ^ 64`.
  Counters bounded by a slice length (`len`, the dust counter) and the scores
  (which stay within a few dozen of 50) never wrap.
* Go slices are lists; `append` is `++`.
* The one floating-point expression of the engine,
  `float64(estimatedFee) / float64(total) > 0.05`, is modelled exactly in
  integer arithmetic (IEEE-754 binary64, round to nearest, ties to even).
* The amount of a node record stays a `Float`; its conversion `btcToSats` is
  written as in the source and no theorem depends on its value.
* `fmt.Sprintf` is a one-pass interpreter for the verbs `%d` and `%s`.
-/

namespace SovereignChecker

/-! ## IEEE-754 binary64, as far as the scorer uses it -/

namespace float64

/-- The integer nearest to the rational `n / d` (for `0 < d`), ties going to
the even neighbour: the rounding rule of IEEE-754 arithmetic. -/
def roundHalfEven (n d : Nat) : Nat :=
  let q := n / d
  let r := n % d
  if 2 * r < d then q
  else if d < 2 * r then q + 1
  else if q % 2 = 0 then q
  else q + 1

/-- The conversion `float64(u)` of a `uint64`: the value of the resulting double,
which is an integer.  Values below `2 ^ 53` are exact; a larger value keeps its
53 leading bits, rounded to nearest-even. -/
def ofUint64 (u : Nat) : Nat :=
  if u < 2 ^ 53 then u
  else
    let k := Nat.log2 u - 52
    roundHalfEven u (2 ^ k) * 2 ^ k

/-- The quotient `a / b` of two doubles holding positive integers of at most
`2 ^ 64`, scaled by `2 ^ 120` so that it is an integer: the exact quotient
`a * 2 ^ 120 / b` lies in `[2 ^ L, 2 ^ (L + 1))`, and is rounded to nearest-even at
the 53-bit precision of that binade (multiples of `2 ^ (L - 52)`).  The quotient
is between `2 ^ (-64)` and `2 ^ 64`, far inside the normal range of binary64. -/
def divScaled (a b : Nat) : Nat :=
  let n := a * 2 ^ 120
  let k := Nat.log2 (n / b) - 52
  roundHalfEven n (b * 2 ^ k) * 2 ^ k

/-- The double nearest to the constant `0.05`, which is
`7205759403792794 / 2 ^ 57` (bit pattern `0x3FA999999999999A`), scaled by `2 ^ 120`. -/
def const005Scaled : Nat := 7205759403792794 * 2 ^ 63

/-- The test `float64(fee) / float64(total) > 0.05` of the scorer, for
`fee > 0` and `total > 0`. -/
def quotGt005 (fee total : Nat) : Bool :=
  decide (const005Scaled < divScaled (ofUint64 fee) (ofUint64 total))

end float64

/-! ## Package `btc` -/

namespace btc

/-- The canonical unspent output (`btc.UTXO`). -/
structure UTXO where
  TxID : String
  Vout : Int
  ValueSats : Nat
  Confirmed : Bool
  BlockHeight : Int
  Source : String
deriving DecidableEq, Repr

/-- Rough fee estimate for a sweep (`btc.EstimateSweepFee`): the size is computed in
`int` and converted to `uint64`, the product with the fee rate is a `uint64`
product. -/
def EstimateSweepFee (numInputs numOutputs : Int) (feeRateSatsPerVByte : Nat) : Nat :=
  if numInputs ≤ 0 ∨ numOutputs ≤ 0 then 0
  else
    let size := ((numInputs * 148 + numOutputs * 34 + 10) % 2 ^ 64).toNat
    (size * feeRateSatsPerVByte) % 2 ^ 64

end btc

/-! ## Package `score` -/

namespace score

/-- The result record of the scorer (`score.Result`). -/
structure Result where
  Address : String
  Network : String
  Mode : String
  TotalBalanceSats : Nat
  NumUTXOs : Int
  DustUTXOs : Int
  EstimatedSweepFee : Nat
  FeeRateSatVB : Nat
  SovereigntyScore : Int
  Warnings : List String
  Notes : List String
  UTXOs : List btc.UTXO
deriving DecidableEq, Repr

/-- The input record of the scorer (`score.Input`). -/
structure Input where
  Address : String
  Network : String
  Mode : String
  UTXOs : List btc.UTXO
  FeeRateSatVB : Nat
deriving DecidableEq, Repr

/-- The dust counter (`score.CountDust`): one pass over the slice, incrementing on
every value strictly below the threshold. -/
def CountDust (utxos : List btc.UTXO) (dustThreshold : Nat) : Int :=
  utxos.foldl (fun n u => if u.ValueSats < dustThreshold then n + 1 else n) 0

/-- The first loop of `Compute`: `total += u.ValueSats` in `uint64`. -/
def sumValues (utxos : List btc.UTXO) : Nat :=
  utxos.foldl (fun total u => (total + u.ValueSats) % 2 ^ 64) 0

/-- The three locals `score`, `warnings`, `notes` that `Compute` updates block
after block. -/
structure Acc where
  score : Int
  warnings : List String
  notes : List String
deriving DecidableEq, Repr

/-- The initial values `score := 50`, `warnings := []`, `notes := []`. -/
def initAcc : Acc := ⟨50, [], []⟩

/-- The `switch` on the UTXO count. -/
def countStep (nUTXOs : Int) (s : Acc) : Acc :=
  if nUTXOs = 0 then
    { s with score := s.score - 10,
             warnings := s.warnings ++ ["No UTXOs found for this address."] }
  else if nUTXOs > 50 then
    { s with score := s.score - 20,
             warnings := s.warnings ++ ["Very high UTXO count; sweeping could be expensive."] }
  else if nUTXOs > 10 then
    { s with score := s.score - 10,
             warnings := s.warnings ++
               ["Moderate UTXO count; consider consolidation when fees are low."] }
  else
    { s with score := s.score + 10,
             notes := s.notes ++ ["UTXO count looks reasonable."] }

/-- The block `if dust > 0`. -/
def dustStep (dust : Int) (s : Acc) : Acc :=
  if dust > 0 then
    { s with score := s.score - 10,
             warnings := s.warnings ++
               ["Dust UTXOs (< 1000 sats) detected; may be uneconomical to spend."] }
  else s

/-- The block `if estimatedFee > 0 && total > 0`, with its floating-point test. -/
def sweepStep (estimatedFee total : Nat) (s : Acc) : Acc :=
  if estimatedFee > 0 ∧ total > 0 then
    if float64.quotGt005 estimatedFee total = true then
      { s with score := s.score - 10,
               warnings := s.warnings ++ ["Estimated sweep fee is >5% of total balance."] }
    else
      { s with score := s.score + 5,
               notes := s.notes ++ ["Sweep fee looks small relative to balance."] }
  else s

/-- The two clamping blocks `if score < 0` and `if score > 100`. -/
def clampStep (s : Acc) : Acc :=
  let s1 := if s.score < 0 then { s with score := 0 } else s
  if s1.score > 100 then { s1 with score := 100 } else s1

/-- The final `append` of the two fixed notes. -/
def fixedNotesStep (s : Acc) : Acc :=
  { s with notes := s.notes ++
      ["Use fresh addresses for incoming payments to reduce address reuse.",
       "Be careful: consolidation can reduce privacy by linking UTXOs."] }

/-- The locals of `Compute` after the dust block, that is before the sweep-fee
block. -/
def accBeforeSweep (utxos : List btc.UTXO) : Acc :=
  dustStep (CountDust utxos 1000) (countStep (utxos.length : Int) initAcc)

/-- The sovereignty scorer (`score.Compute`). -/
def Compute (inp : Input) : Result :=
  let total := sumValues inp.UTXOs
  let nUTXOs : Int := (inp.UTXOs.length : Int)
  let dust := CountDust inp.UTXOs 1000
  let estimatedFee := btc.EstimateSweepFee nUTXOs 1 inp.FeeRateSatVB
  let s := fixedNotesStep (clampStep (sweepStep estimatedFee total
    (dustStep dust (countStep nUTXOs initAcc))))
  { Address := inp.Address,
    Network := inp.Network,
    Mode := inp.Mode,
    TotalBalanceSats := total,
    NumUTXOs := nUTXOs,
    DustUTXOs := dust,
    EstimatedSweepFee := estimatedFee,
    FeeRateSatVB := inp.FeeRateSatVB,
    SovereigntyScore := s.score,
    Warnings := s.warnings,
    Notes := s.notes,
    UTXOs := inp.UTXOs }

end score

/-! ## Package `planner` -/

namespace planner

/-- The decision record of the planner (`planner.ConsolidationPlan`). -/
structure ConsolidationPlan where
  Recommended : Bool
  Reason : String
  SuggestedTarget : String
  Notes : List String
  FeeNowSatVB : Nat
  FeeLowSatVB : Nat
deriving DecidableEq, Repr

/-- The input record of the planner (`planner.Inputs`). -/
structure Inputs where
  NumUTXOs : Int
  DustCount : Int
  FeeNowSatVB : Nat
  FeeLowSatVB : Nat
deriving DecidableEq, Repr

/-- The local `pressure` of `Decide`: starts at 0 and is incremented by three
independent tests. -/
def pressure (inp : Inputs) : Int :=
  let p0 : Int := 0
  let p1 := if inp.NumUTXOs > 10 then p0 + 1 else p0
  let p2 := if inp.NumUTXOs > 30 then p1 + 1 else p1
  if inp.DustCount > 0 then p2 + 1 else p2

/-- The consolidation planner (`planner.Decide`); `notes` is the empty slice the
function starts from. -/
def Decide (inp : Inputs) : ConsolidationPlan :=
  let notes : List String := []
  if inp.NumUTXOs ≤ 1 then
    { Recommended := false,
      Reason := "Already 0–1 UTXOs; consolidation not needed.",
      SuggestedTarget := "N/A",
      Notes := notes,
      FeeNowSatVB := inp.FeeNowSatVB,
      FeeLowSatVB := inp.FeeLowSatVB }
  else if pressure inp = 0 then
    { Recommended := false,
      Reason := "UTXO set looks manageable; consolidation optional.",
      SuggestedTarget := "N/A",
      Notes := notes ++
        ["Consolidate only when fees are low if you want to simplify future spending."],
      FeeNowSatVB := inp.FeeNowSatVB,
      FeeLowSatVB := inp.FeeLowSatVB }
  else if inp.FeeNowSatVB ≤ inp.FeeLowSatVB then
    { Recommended := true,
      Reason := "Fees look low and UTXO fragmentation is high; consolidate now to reduce future fees.",
      SuggestedTarget := "Consolidate to 1–3 UTXOs",
      Notes := notes ++
        ["Consolidation can reduce privacy by linking coins.",
         "Consider privacy tools before consolidating large amounts."],
      FeeNowSatVB := inp.FeeNowSatVB,
      FeeLowSatVB := inp.FeeLowSatVB }
  else
    { Recommended := false,
      Reason := "Fees look elevated; waiting for cheaper fees is likely better unless you must move coins soon.",
      SuggestedTarget := "Wait for a low-fee window",
      Notes := notes ++
        ["If you must spend soon, consider consolidating only the smallest UTXOs.",
         "Re-check fee estimates from your node periodically."],
      FeeNowSatVB := inp.FeeNowSatVB,
      FeeLowSatVB := inp.FeeLowSatVB }

end planner

/-! ## Package `ln` -/

namespace ln

/-- The node-info snapshot (`ln.GetInfoResponse`). -/
structure GetInfoResponse where
  IdentityPubkey : String
  Alias : String
  BlockHeight : Int
  Version : String
  NumActiveChannels : Int
  NumPeers : Int
  SyncedToChain : Bool
  SyncedToGraph : Bool
deriving DecidableEq, Repr

/-- The readiness record (`ln.Readiness`). -/
structure Readiness where
  Ready : Bool
  Score : Int
  Reasons : List String
  Info : GetInfoResponse
deriving DecidableEq, Repr

/-- The Lightning readiness evaluator (`ln.ComputeReadiness`).  Each `a_i` is the pair
of locals `(score, reasons)` after the i-th block of the function. -/
def ComputeReadiness (info : GetInfoResponse) : Readiness :=
  let a0 : Int × List String := (50, [])
  let a1 := if info.SyncedToChain = true then (a0.1 + 25, a0.2)
    else (a0.1 - 25, a0.2 ++ ["LND not synced to chain"])
  let a2 := if info.NumPeers > 0 then (a1.1 + 10, a1.2)
    else (a1.1 - 10, a1.2 ++ ["No peers connected"])
  let a3 := if info.NumActiveChannels > 0 then (a2.1 + 15, a2.2)
    else (a2.1, a2.2 ++
      ["No active channels (opening a channel required for most outgoing LN payments)"])
  let a4 := if a3.1 < 0 then ((0 : Int), a3.2) else a3
  let a5 := if a4.1 > 100 then ((100 : Int), a4.2) else a4
  { Ready := info.SyncedToChain && decide (info.NumPeers > 0),
    Score := a5.1,
    Reasons := a5.2,
    Info := info }

end ln

/-! ## Package `btc`: normalization of node records -/

namespace btc

/-- One record of the `listunspent` answer (`btc.ListUnspentItem`); the amount is the
`float64` decoded from the JSON payload. -/
structure ListUnspentItem where
  TxID : String
  Vout : Int
  Address : String
  AmountBTC : Float
  Confirmations : Int
  Spendable : Bool
  Solvable : Bool
deriving Repr

/-- The conversion `uint64(b * 100_000_000.0)` (`btc.btcToSats`): a `float64` product
truncated toward zero. -/
def btcToSats (b : Float) : Nat :=
  (b * 100000000.0).toUInt64.toNat

/-- The composite literal `UTXO{...}` built in the body of the loop of
`UTXOsForAddress`. -/
def utxoOfUnspent (it : ListUnspentItem) : UTXO :=
  { TxID := it.TxID,
    Vout := it.Vout,
    ValueSats := btcToSats it.AmountBTC,
    Confirmed := decide (it.Confirmations > 0),
    BlockHeight := 0,
    Source := "bitcoind" }

/-- The loop of `UTXOsForAddress`: `out` starts empty and every item appends one
UTXO. -/
def normalizeLoop (items : List ListUnspentItem) : List UTXO :=
  items.foldl (fun out it => out ++ [utxoOfUnspent it]) []

/-- The method `UTXOsForAddress`, given the outcome of its `ListUnspent` call: an
error is passed on, a list of records is normalized. -/
def UTXOsForAddress (listUnspent : Except String (List ListUnspentItem)) :
    Except String (List UTXO) :=
  match listUnspent with
  | .error err => .error err
  | .ok items => .ok (normalizeLoop items)

end btc

/-! ## `fmt.Sprintf`, as far as the repository uses it -/

namespace fmt

/-- An argument of `Sprintf`: an `int`, a `uint64` or a string. -/
inductive Arg where
  | int (i : Int)
  | uint (n : Nat)
  | str (s : String)
deriving Repr

/-- The text of one argument under the verb `%d` (integers, in decimal, with a
minus sign when negative) or `%s` (strings, verbatim). -/
def formatArg : Arg → String
  | .int i => toString i
  | .uint n => toString n
  | .str s => s

/-- One pass over the format: `%` followed by a verb character consumes the next
argument and emits its text, every other character is copied.  Only the verbs
`%d` and `%s`, applied to an argument of the matching kind, occur in the
repository. -/
def sprintfCore : List Char → List Arg → List Char
  | [], _ => []
  | [c], _ => [c]
  | c :: v :: cs, args =>
    if c = '%' then
      match args with
      | a :: rest => (formatArg a).data ++ sprintfCore cs rest
      | [] => c :: v :: sprintfCore cs []
    else c :: sprintfCore (v :: cs) args

/-- The function `fmt.Sprintf` on a format and its arguments. -/
def Sprintf (format : String) (args : List Arg) : String :=
  ⟨sprintfCore format.data args⟩

end fmt

/-! ## Package `api` -/

namespace api

/-- The one-line summary of a report (`api.sovereigntySummary`); the optional
readiness is the pointer `lnReady`, `none` standing for `nil`. -/
def sovereigntySummary (onchain : score.Result) (plan : planner.ConsolidationPlan)
    (lnReady : Option ln.Readiness) : String :=
  let planPart0 := "Plan: WAIT"
  let planPart := if plan.Recommended = true then "Plan: CONSOLIDATE" else planPart0
  let lnPart0 := "LN: n/a"
  let lnPart :=
    match lnReady with
    | some r =>
      if r.Ready = true then fmt.Sprintf "LN: READY (%d/100)" [.int r.Score]
      else fmt.Sprintf "LN: NOT READY (%d/100)" [.int r.Score]
    | none => lnPart0
  fmt.Sprintf "Score %d/100 • %d UTXOs (%d dust) • Fee %d sat/vB • %s • %s"
    [.int onchain.SovereigntyScore, .int onchain.NumUTXOs, .int onchain.DustUTXOs,
     .uint onchain.FeeRateSatVB, .str planPart, .str lnPart]

end api

/-! ## Vocabulary of the specification -/

/-- The clamp of an integer to the interval `[lo, hi]`. -/
def clamp (lo hi x : Int) : Int :=
  if x < lo then lo else if hi < x then hi else x

/-- The priority chain on the UTXO count `n` as the specification words it: `c` is
the delta of the branch that applies. -/
def CountBranch (n c : Int) : Prop :=
  (n = 0 ∧ c = -10) ∨ (50 < n ∧ c = -20) ∨ (10 < n ∧ n ≤ 50 ∧ c = -10) ∨
    (1 ≤ n ∧ n ≤ 10 ∧ c = 10)

instance (n c : Int) : Decidable (CountBranch n c) := by
  unfold CountBranch
  infer_instance

/-- The dust delta as the specification words it. -/
def dustDelta (d : Int) : Int := if 0 < d then -10 else 0

/-- The sweep-ratio delta `r` as the specification bounds it: 0 when the fee or
the balance is 0, otherwise one of -10 and +5. -/
def SweepBranch (fee total : Nat) (r : Int) : Prop :=
  ((fee = 0 ∨ total = 0) → r = 0) ∧ (¬ (fee = 0 ∨ total = 0) → (r = -10 ∨ r = 5))

instance (fee total : Nat) (r : Int) : Decidable (SweepBranch fee total r) := by
  unfold SweepBranch
  infer_instance

/-- The four named outcomes of the planner, as the specification lists them. -/
def planMinimal (feeNow feeLow : Nat) : planner.ConsolidationPlan :=
  { Recommended := false,
    Reason := "Already 0–1 UTXOs; consolidation not needed.",
    SuggestedTarget := "N/A",
    Notes := [],
    FeeNowSatVB := feeNow,
    FeeLowSatVB := feeLow }

/-- Outcome 2: pressure 0, consolidation optional. -/
def planManageable (feeNow feeLow : Nat) : planner.ConsolidationPlan :=
  { Recommended := false,
    Reason := "UTXO set looks manageable; consolidation optional.",
    SuggestedTarget := "N/A",
    Notes := ["Consolidate only when fees are low if you want to simplify future spending."],
    FeeNowSatVB := feeNow,
    FeeLowSatVB := feeLow }

/-- Outcome 3: pressure and low fees, consolidate now. -/
def planConsolidate (feeNow feeLow : Nat) : planner.ConsolidationPlan :=
  { Recommended := true,
    Reason := "Fees look low and UTXO fragmentation is high; consolidate now to reduce future fees.",
    SuggestedTarget := "Consolidate to 1–3 UTXOs",
    Notes := ["Consolidation can reduce privacy by linking coins.",
      "Consider privacy tools before consolidating large amounts."],
    FeeNowSatVB := feeNow,
    FeeLowSatVB := feeLow }

/-- Outcome 4: pressure and elevated fees, wait. -/
def planWait (feeNow feeLow : Nat) : planner.ConsolidationPlan :=
  { Recommended := false,
    Reason := "Fees look elevated; waiting for cheaper fees is likely better unless you must move coins soon.",
    SuggestedTarget := "Wait for a low-fee window",
    Notes := ["If you must spend soon, consider consolidating only the smallest UTXOs.",
      "Re-check fee estimates from your node periodically."],
    FeeNowSatVB := feeNow,
    FeeLowSatVB := feeLow }

/-! ## Concrete inputs used by the scenarios -/

/-- A confirmed explorer UTXO of the given value. -/
def utxoOf (value : Nat) : btc.UTXO :=
  { TxID := "tx", Vout := 0, ValueSats := value, Confirmed := true, BlockHeight := 1,
    Source := "explorer" }

/-- The scenario of the specification: 60 UTXOs of which 5 are dust, fee rate 10. -/
def scenario60 : score.Input :=
  { Address := "addr", Network := "mainnet", Mode := "explorer",
    UTXOs := List.replicate 55 (utxoOf 50000) ++ List.replicate 5 (utxoOf 500),
    FeeRateSatVB := 10 }

/-- Two UTXOs of `2 ^ 63` smallest units each: every value is a `uint64`, their sum
is `2 ^ 64`. -/
def overflowPair : score.Input :=
  { Address := "addr", Network := "mainnet", Mode := "explorer",
    UTXOs := [utxoOf (2 ^ 63), utxoOf (2 ^ 63)],
    FeeRateSatVB := 1 }

/-- The sum of the values of a UTXO sequence, as a natural number (no wrap). -/
def sumOfValues (utxos : List btc.UTXO) : Nat :=
  (utxos.map (fun u => u.ValueSats)).sum

/-- The number of UTXOs whose value is strictly below `t`. -/
def countBelow (utxos : List btc.UTXO) (t : Nat) : Nat :=
  utxos.countP (fun u => decide (u.ValueSats < t))

/-- One UTXO and the fee rate `2 ^ 63`, a `uint64` value. -/
def hugeFeeRate : score.Input :=
  { Address := "addr", Network := "mainnet", Mode := "explorer",
    UTXOs := [utxoOf 50000],
    FeeRateSatVB := 2 ^ 63 }

/-- The warning of the sweep-ratio block. -/
def expensiveSweepWarning : String := "Estimated sweep fee is >5% of total balance."

/-- The note of the sweep-ratio block. -/
def smallSweepNote : String := "Sweep fee looks small relative to balance."

/-- One UTXO of 38399999999999999 smallest units at the fee rate `10 ^ 13`: the
estimated fee is `192 * 10 ^ 13`, just above one twentieth of the balance. -/
def ratioAboveInput : score.Input :=
  { Address := "addr", Network := "mainnet", Mode := "explorer",
    UTXOs := [utxoOf 38399999999999999],
    FeeRateSatVB := 10000000000000 }

/-- One UTXO of 13094989503594351360 smallest units at the fee rate
3410153516561029: the estimated fee is exactly one twentieth of the balance. -/
def ratioExactInput : score.Input :=
  { Address := "addr", Network := "mainnet", Mode := "explorer",
    UTXOs := [utxoOf 13094989503594351360],
    FeeRateSatVB := 3410153516561029 }

/-- The locals of `Compute` after the sweep-ratio block, that is right before the
two clamping blocks. -/
def accBeforeClamp (inp : score.Input) : score.Acc :=
  score.sweepStep (btc.EstimateSweepFee (inp.UTXOs.length : Int) 1 inp.FeeRateSatVB)
    (score.sumValues inp.UTXOs) (score.accBeforeSweep inp.UTXOs)

/-- A set of 51 dust UTXOs of one smallest unit each, at 1 sat/vB: very high count,
dust, and a sweep fee far above the balance. -/
def worstCaseInput : score.Input :=
  { Address := "addr", Network := "mainnet", Mode := "explorer",
    UTXOs := List.replicate 51 (utxoOf 1),
    FeeRateSatVB := 1 }

/-- A single UTXO of 50000 smallest units at 1 sat/vB: reasonable count, no dust,
cheap sweep. -/
def bestCaseInput : score.Input :=
  { Address := "addr", Network := "mainnet", Mode := "explorer",
    UTXOs := [utxoOf 50000],
    FeeRateSatVB := 1 }

/-- A synced node with three peers and no active channel. -/
def syncedNoChannels : ln.GetInfoResponse :=
  { IdentityPubkey := "02ab", Alias := "node", BlockHeight := 800000, Version := "0.17",
    NumActiveChannels := 0, NumPeers := 3, SyncedToChain := true, SyncedToGraph := true }

/-- The summary line as the specification writes it, with its six holes. -/
def summaryTemplate (S N D : Int) (F : Nat) (P L : String) : String :=
  "Score " ++ toString S ++ "/100 • " ++ toString N ++ " UTXOs (" ++ toString D ++
    " dust) • Fee " ++ toString F ++ " sat/vB • Plan: " ++ P ++ " • LN: " ++ L

/-- The plan word of the summary. -/
def planWord (plan : planner.ConsolidationPlan) : String :=
  if plan.Recommended = true then "CONSOLIDATE" else "WAIT"

/-- The Lightning part of the summary as the specification writes it: a ready node is
shown as plain `READY`. -/
def lnWordOfSpec (lnReady : Option ln.Readiness) : String :=
  match lnReady with
  | none => "n/a"
  | some r => if r.Ready = true then "READY" else "NOT READY (" ++ toString r.Score ++ "/100)"

/-- The Lightning part of the summary with the score shown in both states. -/
def lnWordWithScore (lnReady : Option ln.Readiness) : String :=
  match lnReady with
  | none => "n/a"
  | some r =>
    if r.Ready = true then "READY (" ++ toString r.Score ++ "/100)"
    else "NOT READY (" ++ toString r.Score ++ "/100)"

/-- A `listunspent` record with three confirmations. -/
def sampleUnspent : btc.ListUnspentItem :=
  { TxID := "4a5e1e", Vout := 1, Address := "addr", AmountBTC := 0.5, Confirmations := 3,
    Spendable := true, Solvable := true }

/-- A `listunspent` record still in the mempool (no confirmation). -/
def unconfirmedUnspent : btc.ListUnspentItem :=
  { TxID := "0e3e23", Vout := 0, Address := "addr", AmountBTC := 0.25, Confirmations := 0,
    Spendable := true, Solvable := true }

/-- A result record with score 65, one UTXO, no dust, fee rate 10. -/
def sampleResult : score.Result :=
  { Address := "addr", Network := "mainnet", Mode := "explorer",
    TotalBalanceSats := 50000, NumUTXOs := 1, DustUTXOs := 0, EstimatedSweepFee := 1920,
    FeeRateSatVB := 10, SovereigntyScore := 65, Warnings := [],
    Notes := ["UTXO count looks reasonable.", "Sweep fee looks small relative to balance.",
      "Use fresh addresses for incoming payments to reduce address reuse.",
      "Be careful: consolidation can reduce privacy by linking UTXOs."],
    UTXOs := [utxoOf 50000] }

/-! ## Theorems -/

/-! ### Auxiliary facts about the blocks of `score.Compute` -/

theorem clamp_range (x : Int) : 0 ≤ clamp 0 100 x ∧ clamp 0 100 x ≤ 100 := by
  unfold clamp
  split_ifs <;> omega

theorem clampStep_score (s : score.Acc) : (score.clampStep s).score = clamp 0 100 s.score := by
  unfold score.clampStep clamp
  by_cases h : s.score < 0
  · have h2 : ¬ ((0 : Int) > 100) := by omega
    simp [h]
  · by_cases h3 : s.score > 100
    · have h4 : (100 : Int) < s.score := h3
      simp [h, h3, h4]
    · have h4 : ¬ ((100 : Int) < s.score) := h3
      simp [h, h3, h4]

theorem clampStep_warnings (s : score.Acc) : (score.clampStep s).warnings = s.warnings := by
  unfold score.clampStep
  by_cases h : s.score < 0 <;> by_cases h3 : s.score > 100 <;> simp [h, h3]

theorem clampStep_notes (s : score.Acc) : (score.clampStep s).notes = s.notes := by
  unfold score.clampStep
  by_cases h : s.score < 0 <;> by_cases h3 : s.score > 100 <;> simp [h, h3]

theorem Compute_score_eq (inp : score.Input) :
    (score.Compute inp).SovereigntyScore =
      clamp 0 100 (score.sweepStep (score.Compute inp).EstimatedSweepFee
        (score.Compute inp).TotalBalanceSats (score.accBeforeSweep inp.UTXOs)).score := by
  simp only [score.Compute, score.fixedNotesStep, clampStep_score, score.accBeforeSweep]

theorem Compute_warnings_eq (inp : score.Input) :
    (score.Compute inp).Warnings =
      (score.sweepStep (score.Compute inp).EstimatedSweepFee
        (score.Compute inp).TotalBalanceSats (score.accBeforeSweep inp.UTXOs)).warnings := by
  simp only [score.Compute, score.fixedNotesStep, clampStep_warnings, score.accBeforeSweep]

theorem Compute_notes_eq (inp : score.Input) :
    (score.Compute inp).Notes =
      (score.sweepStep (score.Compute inp).EstimatedSweepFee
        (score.Compute inp).TotalBalanceSats (score.accBeforeSweep inp.UTXOs)).notes ++
      ["Use fresh addresses for incoming payments to reduce address reuse.",
       "Be careful: consolidation can reduce privacy by linking UTXOs."] := by
  simp only [score.Compute, score.fixedNotesStep, clampStep_notes, score.accBeforeSweep]

/-- C1: for every input to `score.Compute` (any UTXO sequence, any fee rate) the
returned `SovereigntyScore` lies between 0 and 100. -/
theorem Compute_score_in_range (inp : score.Input) :
    0 ≤ (score.Compute inp).SovereigntyScore ∧ (score.Compute inp).SovereigntyScore ≤ 100 := by
  rw [Compute_score_eq]
  exact clamp_range _

theorem countStep_branch (n : Int) (hn : 0 ≤ n) (s : score.Acc) :
    CountBranch n ((score.countStep n s).score - s.score) := by
  unfold score.countStep CountBranch
  by_cases h0 : n = 0
  · simp [h0]
  · by_cases h1 : n > 50
    · have h1' : 50 < n := h1
      simp [h0, h1']
    · by_cases h2 : n > 10
      · have h2' : 10 < n := h2
        have h3 : n ≤ 50 := by omega
        have h1' : ¬ (50 < n) := h1
        simp [h0, h1', h2', h3]
      · have h1' : ¬ (50 < n) := h1
        have h2' : ¬ (10 < n) := h2
        have h3 : 1 ≤ n := by omega
        have h4 : n ≤ 10 := by omega
        simp [h0, h1', h2', h3, h4]

theorem CountBranch_unique (n c c' : Int) (h : CountBranch n c) (h' : CountBranch n c') :
    c' = c := by
  unfold CountBranch at h h'
  omega

theorem dustStep_score (d : Int) (s : score.Acc) :
    (score.dustStep d s).score = s.score + dustDelta d := by
  unfold score.dustStep dustDelta
  by_cases h : d > 0
  · have h' : 0 < d := h
    simp only [h, h', if_true]
    omega
  · have h' : ¬ (0 < d) := h
    simp [h, h']

theorem sweepStep_branch (fee total : Nat) (s : score.Acc) :
    SweepBranch fee total ((score.sweepStep fee total s).score - s.score) := by
  unfold score.sweepStep SweepBranch
  by_cases hf : fee = 0
  · simp [hf]
  · by_cases ht : total = 0
    · simp [ht]
    · have h1 : fee > 0 ∧ total > 0 := ⟨Nat.pos_of_ne_zero hf, Nat.pos_of_ne_zero ht⟩
      by_cases hq : float64.quotGt005 fee total = true
      · simp [hf, ht, h1, hq]
      · simp [hf, ht, h1, hq]

theorem dustStep_warnings_extend (d : Int) (s : score.Acc) :
    s.warnings <+: (score.dustStep d s).warnings := by
  unfold score.dustStep
  by_cases h : d > 0
  · simp [h]
  · simp [h]

theorem dustStep_notes (d : Int) (s : score.Acc) : (score.dustStep d s).notes = s.notes := by
  unfold score.dustStep
  by_cases h : d > 0 <;> simp [h]

theorem sweepStep_warnings_extend (fee total : Nat) (s : score.Acc) :
    s.warnings <+: (score.sweepStep fee total s).warnings := by
  unfold score.sweepStep
  by_cases h1 : fee > 0 ∧ total > 0
  · by_cases hq : float64.quotGt005 fee total = true <;> simp [h1, hq]
  · simp [h1]

theorem sweepStep_notes_extend (fee total : Nat) (s : score.Acc) :
    s.notes <+: (score.sweepStep fee total s).notes := by
  unfold score.sweepStep
  by_cases h1 : fee > 0 ∧ total > 0
  · by_cases hq : float64.quotGt005 fee total = true <;> simp [h1, hq]
  · simp [h1]

theorem countStep_messages (n : Int) :
    (n = 0 → (score.countStep n score.initAcc).warnings = ["No UTXOs found for this address."] ∧
      (score.countStep n score.initAcc).notes = []) ∧
    (50 < n → (score.countStep n score.initAcc).warnings =
        ["Very high UTXO count; sweeping could be expensive."] ∧
      (score.countStep n score.initAcc).notes = []) ∧
    (10 < n ∧ n ≤ 50 → (score.countStep n score.initAcc).warnings =
        ["Moderate UTXO count; consider consolidation when fees are low."] ∧
      (score.countStep n score.initAcc).notes = []) ∧
    (1 ≤ n ∧ n ≤ 10 → (score.countStep n score.initAcc).warnings = [] ∧
      (score.countStep n score.initAcc).notes = ["UTXO count looks reasonable."]) := by
  unfold score.countStep score.initAcc
  refine ⟨?_, ?_, ?_, ?_⟩
  · intro h
    simp [h]
  · intro h
    have h0 : n ≠ 0 := by omega
    have h1 : n > 50 := h
    simp [h0, h1]
  · rintro ⟨h, h'⟩
    have h0 : n ≠ 0 := by omega
    have h1 : ¬ (n > 50) := by omega
    have h2 : n > 10 := h
    simp [h0, h1, h2]
  · rintro ⟨h, h'⟩
    have h0 : n ≠ 0 := by omega
    have h1 : ¬ (n > 50) := by omega
    have h2 : ¬ (n > 10) := by omega
    simp [h0, h1, h2]

/-- C2: the score of `score.Compute` is `clamp_[0,100](50 + c + p + r)`, with `c` the
delta of the one count branch that applies to `NumUTXOs`, `p = -10` if
`DustUTXOs > 0` and 0 otherwise, and `r = 0` when the estimated sweep fee or the
total balance is 0 and one of -10, +5 otherwise; a set of more than 50 UTXOs with
dust stands at 20 before the sweep-ratio block; the count branch emits exactly
one message (a warning in the first three cases, the note "UTXO count looks
reasonable." in the last), which heads the returned warnings or notes. -/
theorem Compute_score_decomposition (inp : score.Input) :
    (∃ c r : Int,
      CountBranch (score.Compute inp).NumUTXOs c ∧
      (∀ c', CountBranch (score.Compute inp).NumUTXOs c' → c' = c) ∧
      SweepBranch (score.Compute inp).EstimatedSweepFee (score.Compute inp).TotalBalanceSats r ∧
      (score.Compute inp).SovereigntyScore =
        clamp 0 100 (50 + c + dustDelta (score.Compute inp).DustUTXOs + r)) ∧
    (50 < (score.Compute inp).NumUTXOs ∧ 0 < (score.Compute inp).DustUTXOs →
      (score.accBeforeSweep inp.UTXOs).score = 20) ∧
    ((score.countStep (score.Compute inp).NumUTXOs score.initAcc).warnings
        <+: (score.Compute inp).Warnings ∧
      (score.countStep (score.Compute inp).NumUTXOs score.initAcc).notes
        <+: (score.Compute inp).Notes) ∧
    ((score.Compute inp).NumUTXOs = 0 →
      (score.countStep (score.Compute inp).NumUTXOs score.initAcc).warnings =
        ["No UTXOs found for this address."] ∧
      (score.countStep (score.Compute inp).NumUTXOs score.initAcc).notes = []) ∧
    (50 < (score.Compute inp).NumUTXOs →
      (score.countStep (score.Compute inp).NumUTXOs score.initAcc).warnings =
        ["Very high UTXO count; sweeping could be expensive."] ∧
      (score.countStep (score.Compute inp).NumUTXOs score.initAcc).notes = []) ∧
    (10 < (score.Compute inp).NumUTXOs ∧ (score.Compute inp).NumUTXOs ≤ 50 →
      (score.countStep (score.Compute inp).NumUTXOs score.initAcc).warnings =
        ["Moderate UTXO count; consider consolidation when fees are low."] ∧
      (score.countStep (score.Compute inp).NumUTXOs score.initAcc).notes = []) ∧
    (1 ≤ (score.Compute inp).NumUTXOs ∧ (score.Compute inp).NumUTXOs ≤ 10 →
      (score.countStep (score.Compute inp).NumUTXOs score.initAcc).warnings = [] ∧
      (score.countStep (score.Compute inp).NumUTXOs score.initAcc).notes =
        ["UTXO count looks reasonable."]) := by
  have hn : (score.Compute inp).NumUTXOs = (inp.UTXOs.length : Int) := rfl
  have hd : (score.Compute inp).DustUTXOs = score.CountDust inp.UTXOs 1000 := rfl
  have hlen : (0 : Int) ≤ (inp.UTXOs.length : Int) := Int.natCast_nonneg _
  have hc := countStep_branch (inp.UTXOs.length : Int) hlen score.initAcc
  have hs := sweepStep_branch (score.Compute inp).EstimatedSweepFee
    (score.Compute inp).TotalBalanceSats (score.accBeforeSweep inp.UTXOs)
  have hb : (score.accBeforeSweep inp.UTXOs).score =
      (score.countStep (inp.UTXOs.length : Int) score.initAcc).score +
        dustDelta (score.CountDust inp.UTXOs 1000) := by
    unfold score.accBeforeSweep
    exact dustStep_score _ _
  have hi : score.initAcc.score = 50 := rfl
  refine ⟨⟨_, _, hn ▸ hc, ?_, hs, ?_⟩, ?_, ⟨?_, ?_⟩, ?_⟩
  · intro c' hc'
    rw [hn] at hc'
    exact CountBranch_unique _ _ _ hc hc'
  · rw [Compute_score_eq, hd, hn]
    congr 1
    rw [hb, hi]
    omega
  · rintro ⟨h1, h2⟩
    rw [hn] at h1
    rw [hd] at h2
    rw [hb]
    rw [hi] at hc
    unfold CountBranch at hc
    unfold dustDelta
    simp only [h2, if_true]
    omega
  · rw [Compute_warnings_eq, hn]
    exact (dustStep_warnings_extend _ _).trans (sweepStep_warnings_extend _ _ _)
  · rw [Compute_notes_eq, hn]
    have h1 : (score.countStep (inp.UTXOs.length : Int) score.initAcc).notes =
        (score.accBeforeSweep inp.UTXOs).notes := by
      unfold score.accBeforeSweep
      exact (dustStep_notes _ _).symm
    rw [h1]
    exact (sweepStep_notes_extend _ _ _).trans (List.prefix_append _ _)
  · exact countStep_messages _

/-- Witness of C2 on the scenario with 60 UTXOs, 5 of them dust: the score stands
at 20 before the sweep-ratio block. -/
theorem Compute_score_decomposition_witness :
    (50 < (score.Compute scenario60).NumUTXOs ∧ 0 < (score.Compute scenario60).DustUTXOs) ∧
      (score.accBeforeSweep scenario60.UTXOs).score = 20 :=
  ⟨by decide, (Compute_score_decomposition scenario60).2.1 (by decide)⟩

/-! ### The planner -/

theorem pressure_eq_zero_iff (inp : planner.Inputs) :
    planner.pressure inp = 0 ↔ inp.NumUTXOs ≤ 10 ∧ inp.DustCount ≤ 0 := by
  unfold planner.pressure
  by_cases h1 : inp.NumUTXOs > 10 <;> by_cases h2 : inp.NumUTXOs > 30 <;>
    by_cases h3 : inp.DustCount > 0 <;> simp [h1, h2, h3] <;> omega

theorem planMinimal_ne_planManageable (a b : Nat) : planMinimal a b ≠ planManageable a b := by
  intro h
  have h2 := congrArg planner.ConsolidationPlan.Notes h
  simp [planMinimal, planManageable] at h2

theorem planConsolidate_ne_planWait (a b : Nat) : planConsolidate a b ≠ planWait a b := by
  intro h
  have h2 := congrArg planner.ConsolidationPlan.Recommended h
  simp [planConsolidate, planWait] at h2

theorem planMinimal_ne_planConsolidate (a b : Nat) : planMinimal a b ≠ planConsolidate a b := by
  intro h
  have h2 := congrArg planner.ConsolidationPlan.Recommended h
  simp [planConsolidate, planMinimal] at h2

theorem planManageable_ne_planConsolidate (a b : Nat) :
    planManageable a b ≠ planConsolidate a b := by
  intro h
  have h2 := congrArg planner.ConsolidationPlan.Recommended h
  simp [planConsolidate, planManageable] at h2

theorem planMinimal_ne_planWait (a b : Nat) : planMinimal a b ≠ planWait a b := by
  intro h
  have h2 := congrArg planner.ConsolidationPlan.Notes h
  simp [planMinimal, planWait] at h2

theorem planManageable_ne_planWait (a b : Nat) : planManageable a b ≠ planWait a b := by
  intro h
  have h2 := congrArg (fun p => p.Notes.length) h
  simp [planManageable, planWait] at h2

/-- C3: `planner.Decide` is total and returns exactly one of the four named
outcomes, selected by: (1) `NumUTXOs <= 1`; (2) `1 < NumUTXOs <= 10` and
`DustCount <= 0`; (3) `NumUTXOs > 1`, (`NumUTXOs > 10` or `DustCount > 0`) and
`FeeNow <= FeeLow`; (4) the same with `FeeNow > FeeLow`.  `Recommended` is true
exactly in case (3), and the inputs (15,0,2,5) and (60,5,10,5) give outcomes (3)
and (4). -/
theorem Decide_four_outcomes (inp : planner.Inputs) :
    (planner.Decide inp = planMinimal inp.FeeNowSatVB inp.FeeLowSatVB ↔ inp.NumUTXOs ≤ 1) ∧
    (planner.Decide inp = planManageable inp.FeeNowSatVB inp.FeeLowSatVB ↔
      1 < inp.NumUTXOs ∧ inp.NumUTXOs ≤ 10 ∧ inp.DustCount ≤ 0) ∧
    (planner.Decide inp = planConsolidate inp.FeeNowSatVB inp.FeeLowSatVB ↔
      1 < inp.NumUTXOs ∧ (10 < inp.NumUTXOs ∨ 0 < inp.DustCount) ∧
        inp.FeeNowSatVB ≤ inp.FeeLowSatVB) ∧
    (planner.Decide inp = planWait inp.FeeNowSatVB inp.FeeLowSatVB ↔
      1 < inp.NumUTXOs ∧ (10 < inp.NumUTXOs ∨ 0 < inp.DustCount) ∧
        inp.FeeLowSatVB < inp.FeeNowSatVB) ∧
    (planner.Decide inp = planMinimal inp.FeeNowSatVB inp.FeeLowSatVB ∨
      planner.Decide inp = planManageable inp.FeeNowSatVB inp.FeeLowSatVB ∨
      planner.Decide inp = planConsolidate inp.FeeNowSatVB inp.FeeLowSatVB ∨
      planner.Decide inp = planWait inp.FeeNowSatVB inp.FeeLowSatVB) ∧
    ((planner.Decide inp).Recommended = true ↔
      1 < inp.NumUTXOs ∧ (10 < inp.NumUTXOs ∨ 0 < inp.DustCount) ∧
        inp.FeeNowSatVB ≤ inp.FeeLowSatVB) ∧
    planner.Decide ⟨15, 0, 2, 5⟩ = planConsolidate 2 5 ∧
    planner.Decide ⟨60, 5, 10, 5⟩ = planWait 10 5 ∧
    planner.Decide ⟨1, 0, 2, 5⟩ = planMinimal 2 5 ∧
    planner.Decide ⟨5, 0, 2, 5⟩ = planManageable 2 5 := by
  have hp := pressure_eq_zero_iff inp
  have e1 := planMinimal_ne_planManageable inp.FeeNowSatVB inp.FeeLowSatVB
  have e2 := planConsolidate_ne_planWait inp.FeeNowSatVB inp.FeeLowSatVB
  have e3 := planMinimal_ne_planConsolidate inp.FeeNowSatVB inp.FeeLowSatVB
  have e4 := planManageable_ne_planConsolidate inp.FeeNowSatVB inp.FeeLowSatVB
  have e5 := planMinimal_ne_planWait inp.FeeNowSatVB inp.FeeLowSatVB
  have e6 := planManageable_ne_planWait inp.FeeNowSatVB inp.FeeLowSatVB
  have key : (inp.NumUTXOs ≤ 1 ∧
        planner.Decide inp = planMinimal inp.FeeNowSatVB inp.FeeLowSatVB) ∨
      ((1 < inp.NumUTXOs ∧ inp.NumUTXOs ≤ 10 ∧ inp.DustCount ≤ 0) ∧
        planner.Decide inp = planManageable inp.FeeNowSatVB inp.FeeLowSatVB) ∨
      ((1 < inp.NumUTXOs ∧ (10 < inp.NumUTXOs ∨ 0 < inp.DustCount) ∧
          inp.FeeNowSatVB ≤ inp.FeeLowSatVB) ∧
        planner.Decide inp = planConsolidate inp.FeeNowSatVB inp.FeeLowSatVB) ∨
      ((1 < inp.NumUTXOs ∧ (10 < inp.NumUTXOs ∨ 0 < inp.DustCount) ∧
          inp.FeeLowSatVB < inp.FeeNowSatVB) ∧
        planner.Decide inp = planWait inp.FeeNowSatVB inp.FeeLowSatVB) := by
    by_cases h1 : inp.NumUTXOs ≤ 1
    · left
      refine ⟨h1, ?_⟩
      simp [planner.Decide, planMinimal, h1]
    · right
      by_cases h2 : planner.pressure inp = 0
      · left
        have h2' := hp.mp h2
        refine ⟨⟨by omega, h2'.1, h2'.2⟩, ?_⟩
        simp [planner.Decide, planManageable, h1, h2]
      · right
        have h2' : ¬ (inp.NumUTXOs ≤ 10 ∧ inp.DustCount ≤ 0) := fun h => h2 (hp.mpr h)
        by_cases h3 : inp.FeeNowSatVB ≤ inp.FeeLowSatVB
        · left
          refine ⟨⟨by omega, by omega, h3⟩, ?_⟩
          simp [planner.Decide, planConsolidate, h1, h2, h3]
        · right
          refine ⟨⟨by omega, by omega, by omega⟩, ?_⟩
          simp [planner.Decide, planWait, h1, h2, h3]
  refine ⟨?_, ?_, ?_, ?_, ?_, ?_, by decide, by decide, by decide, by decide⟩
  · rcases key with ⟨c, h⟩ | ⟨c, h⟩ | ⟨c, h⟩ | ⟨c, h⟩
    · exact ⟨fun _ => c, fun _ => h⟩
    · exact ⟨fun h' => absurd (h'.symm.trans h) e1, fun h' => by omega⟩
    · exact ⟨fun h' => absurd (h'.symm.trans h) e3, fun h' => by omega⟩
    · exact ⟨fun h' => absurd (h'.symm.trans h) e5, fun h' => by omega⟩
  · rcases key with ⟨c, h⟩ | ⟨c, h⟩ | ⟨c, h⟩ | ⟨c, h⟩
    · exact ⟨fun h' => absurd (h.symm.trans h') e1, fun h' => by omega⟩
    · exact ⟨fun _ => c, fun _ => h⟩
    · exact ⟨fun h' => absurd (h'.symm.trans h) e4, fun h' => by omega⟩
    · exact ⟨fun h' => absurd (h'.symm.trans h) e6, fun h' => by omega⟩
  · rcases key with ⟨c, h⟩ | ⟨c, h⟩ | ⟨c, h⟩ | ⟨c, h⟩
    · exact ⟨fun h' => absurd (h.symm.trans h') e3, fun h' => by omega⟩
    · exact ⟨fun h' => absurd (h.symm.trans h') e4, fun h' => by omega⟩
    · exact ⟨fun _ => c, fun _ => h⟩
    · exact ⟨fun h' => absurd (h'.symm.trans h) e2, fun h' => by omega⟩
  · rcases key with ⟨c, h⟩ | ⟨c, h⟩ | ⟨c, h⟩ | ⟨c, h⟩
    · exact ⟨fun h' => absurd (h.symm.trans h') e5, fun h' => by omega⟩
    · exact ⟨fun h' => absurd (h.symm.trans h') e6, fun h' => by omega⟩
    · exact ⟨fun h' => absurd (h.symm.trans h') e2, fun h' => by omega⟩
    · exact ⟨fun _ => c, fun _ => h⟩
  · rcases key with ⟨_, h⟩ | ⟨_, h⟩ | ⟨_, h⟩ | ⟨_, h⟩
    · exact Or.inl h
    · exact Or.inr (Or.inl h)
    · exact Or.inr (Or.inr (Or.inl h))
    · exact Or.inr (Or.inr (Or.inr h))
  · rcases key with ⟨c, h⟩ | ⟨c, h⟩ | ⟨c, h⟩ | ⟨c, h⟩
    · rw [h]
      exact ⟨fun h' => by simp [planMinimal] at h', fun h' => by omega⟩
    · rw [h]
      exact ⟨fun h' => by simp [planManageable] at h', fun h' => by omega⟩
    · rw [h]
      exact ⟨fun _ => c, fun _ => rfl⟩
    · rw [h]
      exact ⟨fun h' => by simp [planWait] at h', fun h' => by omega⟩

/-- Witness of C3 at the scenario input (15, 0, 2, 5). -/
theorem Decide_four_outcomes_witness :
    (planner.Decide ⟨15, 0, 2, 5⟩).Recommended = true ∧
      (planner.Decide ⟨15, 0, 2, 5⟩).SuggestedTarget = "Consolidate to 1–3 UTXOs" :=
  ⟨(Decide_four_outcomes ⟨15, 0, 2, 5⟩).2.2.2.2.2.1.mpr (by decide),
   by rw [(Decide_four_outcomes ⟨15, 0, 2, 5⟩).2.2.1.mpr (by decide)]; rfl⟩

/-! ### The Lightning readiness evaluator -/

/-- C4: `ln.ComputeReadiness` returns `Ready = true` exactly when `SyncedToChain` is
true and `NumPeers > 0`; changing only `NumActiveChannels` leaves the flag
unchanged. -/
theorem ComputeReadiness_ready_iff (info : ln.GetInfoResponse) :
    ((ln.ComputeReadiness info).Ready = true ↔
      info.SyncedToChain = true ∧ 0 < info.NumPeers) ∧
    (∀ channels : Int,
      (ln.ComputeReadiness { info with NumActiveChannels := channels }).Ready =
        (ln.ComputeReadiness info).Ready) := by
  constructor
  · simp [ln.ComputeReadiness]
  · intro channels
    simp [ln.ComputeReadiness]

/-- C10: the score of `ln.ComputeReadiness` is
`clamp_[0,100](50 ± 25 (chain sync) ± 10 (peers) + 15 (active channels))`, and
`Reasons` lists, in this order, one entry for each unmet condition among: synced
to chain, `NumPeers > 0`, `NumActiveChannels > 0`; it is empty exactly when all
three are met. -/
theorem ComputeReadiness_score_reasons (info : ln.GetInfoResponse) :
    (ln.ComputeReadiness info).Score =
      clamp 0 100 (50 + (if info.SyncedToChain = true then 25 else -25) +
        (if 0 < info.NumPeers then 10 else -10) +
        (if 0 < info.NumActiveChannels then 15 else 0)) ∧
    (ln.ComputeReadiness info).Reasons =
      (if info.SyncedToChain = true then [] else ["LND not synced to chain"]) ++
      (if 0 < info.NumPeers then [] else ["No peers connected"]) ++
      (if 0 < info.NumActiveChannels then []
        else ["No active channels (opening a channel required for most outgoing LN payments)"]) ∧
    ((ln.ComputeReadiness info).Reasons = [] ↔
      info.SyncedToChain = true ∧ 0 < info.NumPeers ∧ 0 < info.NumActiveChannels) := by
  unfold ln.ComputeReadiness clamp
  by_cases h1 : info.SyncedToChain = true <;> by_cases h2 : 0 < info.NumPeers <;>
    by_cases h3 : 0 < info.NumActiveChannels <;> simp [h1, h2, h3]

/-! ### Totals and dust counts -/

theorem foldl_total_mod (l : List btc.UTXO) (acc : Nat) :
    (l.foldl (fun total u => (total + u.ValueSats) % 2 ^ 64) acc) % 2 ^ 64 =
      (acc + sumOfValues l) % 2 ^ 64 := by
  induction l generalizing acc with
  | nil => simp [sumOfValues]
  | cons x xs ih =>
    rw [List.foldl_cons, ih]
    simp only [sumOfValues, List.map_cons, List.sum_cons]
    omega

theorem foldl_total_lt (l : List btc.UTXO) (acc : Nat) (h : acc < 2 ^ 64) :
    l.foldl (fun total u => (total + u.ValueSats) % 2 ^ 64) acc < 2 ^ 64 := by
  induction l generalizing acc with
  | nil => simpa using h
  | cons x xs ih =>
    rw [List.foldl_cons]
    exact ih _ (Nat.mod_lt _ (by norm_num))

theorem sumValues_eq (l : List btc.UTXO) : score.sumValues l = sumOfValues l % 2 ^ 64 := by
  have h1 := foldl_total_mod l 0
  have h2 := foldl_total_lt l 0 (by norm_num)
  unfold score.sumValues
  rw [Nat.mod_eq_of_lt h2, Nat.zero_add] at h1
  exact h1

/-- C5, as stated, fails: for two UTXOs of `2 ^ 63` each (both `uint64` values) the
reported total is 0 while the sum of the values is `2 ^ 64`. -/
theorem Compute_total_overflow :
    (∀ u ∈ overflowPair.UTXOs, u.ValueSats < 2 ^ 64) ∧
    (score.Compute overflowPair).TotalBalanceSats = 0 ∧
    sumOfValues overflowPair.UTXOs = 2 ^ 64 ∧
    (score.Compute overflowPair).TotalBalanceSats ≠ sumOfValues overflowPair.UTXOs := by
  decide

/-- C5, amended: `TotalBalanceSats` is the sum of the values modulo `2 ^ 64` (the total
is accumulated in a `uint64`), hence the sum itself whenever the sum is below
`2 ^ 64`. -/
theorem Compute_total_mod (inp : score.Input) :
    (score.Compute inp).TotalBalanceSats = sumOfValues inp.UTXOs % 2 ^ 64 ∧
    (sumOfValues inp.UTXOs < 2 ^ 64 →
      (score.Compute inp).TotalBalanceSats = sumOfValues inp.UTXOs) := by
  have h : (score.Compute inp).TotalBalanceSats = score.sumValues inp.UTXOs := rfl
  rw [h, sumValues_eq]
  exact ⟨rfl, fun hlt => Nat.mod_eq_of_lt hlt⟩

/-- Witness of the amended C5 on the scenario with 60 UTXOs. -/
theorem Compute_total_mod_witness :
    sumOfValues scenario60.UTXOs < 2 ^ 64 ∧
      (score.Compute scenario60).TotalBalanceSats = sumOfValues scenario60.UTXOs :=
  ⟨by decide, (Compute_total_mod scenario60).2 (by decide)⟩

theorem foldl_dust (l : List btc.UTXO) (t : Nat) (acc : Int) :
    l.foldl (fun n u => if u.ValueSats < t then n + 1 else n) acc =
      acc + (countBelow l t : Int) := by
  induction l generalizing acc with
  | nil => simp [countBelow]
  | cons x xs ih =>
    rw [List.foldl_cons, ih]
    unfold countBelow
    by_cases h : x.ValueSats < t
    · simp only [h, if_true, List.countP_cons, decide_True]
      push_cast
      omega
    · simp [h, List.countP_cons]

theorem CountDust_eq (l : List btc.UTXO) (t : Nat) :
    score.CountDust l t = (countBelow l t : Int) := by
  unfold score.CountDust
  rw [foldl_dust]
  omega

/-- C6: `score.CountDust utxos t` is the number of UTXOs whose value is strictly
below `t`; `score.Compute` reports `DustUTXOs` = the number of UTXOs with value
below 1000 (a UTXO of exactly 1000 is not dust) and `NumUTXOs` = the length of the
sequence, so that `0 <= DustUTXOs <= NumUTXOs`. -/
theorem CountDust_spec (inp : score.Input) (utxos : List btc.UTXO) (t : Nat) :
    score.CountDust utxos t = (countBelow utxos t : Int) ∧
    (score.Compute inp).DustUTXOs = (countBelow inp.UTXOs 1000 : Int) ∧
    (score.Compute inp).NumUTXOs = (inp.UTXOs.length : Int) ∧
    0 ≤ (score.Compute inp).DustUTXOs ∧
    (score.Compute inp).DustUTXOs ≤ (score.Compute inp).NumUTXOs ∧
    score.CountDust [utxoOf 1000] 1000 = 0 ∧
    score.CountDust [utxoOf 999] 1000 = 1 := by
  have hd : (score.Compute inp).DustUTXOs = score.CountDust inp.UTXOs 1000 := rfl
  have hn : (score.Compute inp).NumUTXOs = (inp.UTXOs.length : Int) := rfl
  have hle : countBelow inp.UTXOs 1000 ≤ inp.UTXOs.length := List.countP_le_length _
  refine ⟨CountDust_eq _ _, ?_, hn, ?_, ?_, by decide, by decide⟩
  · rw [hd, CountDust_eq]
  · rw [hd, CountDust_eq]
    omega
  · rw [hd, hn, CountDust_eq]
    omega

/-! ### The sweep-fee estimate -/

theorem EstimateSweepFee_pos_eq (i o : Int) (rate : Nat) (hi : 0 < i) (ho : 0 < o) :
    (btc.EstimateSweepFee i o rate : Int) = ((i * 148 + o * 34 + 10) * (rate : Int)) % 2 ^ 64 := by
  have hc : ¬ (i ≤ 0 ∨ o ≤ 0) := by omega
  have hs : (0 : Int) ≤ (i * 148 + o * 34 + 10) % 18446744073709551616 :=
    Int.emod_nonneg _ (by norm_num)
  unfold btc.EstimateSweepFee
  simp only [hc, if_false]
  push_cast
  rw [Int.toNat_of_nonneg hs, Int.mul_emod (i * 148 + o * 34 + 10) (rate : Int),
    Int.mul_emod ((i * 148 + o * 34 + 10) % 18446744073709551616) (rate : Int), Int.emod_emod]

theorem EstimateSweepFee_nonpos (i o : Int) (rate : Nat) (h : i ≤ 0 ∨ o ≤ 0) :
    btc.EstimateSweepFee i o rate = 0 := by
  unfold btc.EstimateSweepFee
  simp [h]

/-- C7, as stated, fails: the `uint64` product wraps.  With one input and one output
the fee for rate 96076792050570581 is `2 ^ 64 - 64` and the fee for the next rate
is 128; with rate 54255129628557505 the fee for one input is larger than the fee
for two inputs. -/
theorem EstimateSweepFee_not_monotone :
    ((96076792050570581 : Nat) ≤ 96076792050570582 ∧ (96076792050570582 : Nat) < 2 ^ 64 ∧
      btc.EstimateSweepFee 1 1 96076792050570581 = 18446744073709551552 ∧
      btc.EstimateSweepFee 1 1 96076792050570582 = 128 ∧
      ¬ (btc.EstimateSweepFee 1 1 96076792050570581 ≤
          btc.EstimateSweepFee 1 1 96076792050570582)) ∧
    ((1 : Int) ≤ 2 ∧ (54255129628557505 : Nat) < 2 ^ 64 ∧
      btc.EstimateSweepFee 1 1 54255129628557505 = 10416984888683040960 ∧
      btc.EstimateSweepFee 2 1 54255129628557505 = 84 ∧
      ¬ (btc.EstimateSweepFee 1 1 54255129628557505 ≤
          btc.EstimateSweepFee 2 1 54255129628557505)) := by
  decide

/-- C7, amended: `btc.EstimateSweepFee` is non-decreasing in the fee rate and in the
input count as long as the larger product does not overflow: for every output
count `o`, input counts `a <= b` and fee rates `r <= s` with
`(b*148 + o*34 + 10) * s < 2 ^ 64`, `EstimateSweepFee(a, o, r) <= EstimateSweepFee(b, o, s)`. -/
theorem EstimateSweepFee_monotone (o a b : Int) (r s : Nat) (hab : a ≤ b) (hrs : r ≤ s)
    (hno : (b * 148 + o * 34 + 10) * (s : Int) < 2 ^ 64) :
    btc.EstimateSweepFee a o r ≤ btc.EstimateSweepFee b o s := by
  by_cases hc : a ≤ 0 ∨ o ≤ 0
  · rw [EstimateSweepFee_nonpos a o r hc]
    exact Nat.zero_le _
  · have ha : 0 < a := by omega
    have ho : 0 < o := by omega
    have hb : 0 < b := by omega
    have h1 := EstimateSweepFee_pos_eq a o r ha ho
    have h2 := EstimateSweepFee_pos_eq b o s hb ho
    have hA : 0 ≤ a * 148 + o * 34 + 10 := by omega
    have hAB : a * 148 + o * 34 + 10 ≤ b * 148 + o * 34 + 10 := by omega
    have hr : (0 : Int) ≤ (r : Int) := Int.natCast_nonneg _
    have hrs' : (r : Int) ≤ (s : Int) := Int.ofNat_le.mpr hrs
    have hle : (a * 148 + o * 34 + 10) * (r : Int) ≤ (b * 148 + o * 34 + 10) * (s : Int) :=
      mul_le_mul hAB hrs' hr (by omega)
    have h0 : 0 ≤ (a * 148 + o * 34 + 10) * (r : Int) := mul_nonneg hA hr
    rw [Int.emod_eq_of_lt h0 (lt_of_le_of_lt hle hno)] at h1
    rw [Int.emod_eq_of_lt (le_trans h0 hle) hno] at h2
    have : (btc.EstimateSweepFee a o r : Int) ≤ (btc.EstimateSweepFee b o s : Int) := by
      rw [h1, h2]
      exact hle
    exact Int.ofNat_le.mp this

/-- Witness of the amended C7: from 3 inputs at 5 sat/vB to 60 inputs at 10 sat/vB. -/
theorem EstimateSweepFee_monotone_witness :
    btc.EstimateSweepFee 3 1 5 ≤ btc.EstimateSweepFee 60 1 10 :=
  EstimateSweepFee_monotone 1 3 60 5 10 (by decide) (by decide) (by decide)

/-- C8, as stated, fails: with one input, one output and the `uint64` fee rate
`2 ^ 63` the estimate is 0, not `(1*148 + 1*34 + 10) * 2 ^ 63`; `score.Compute` then
reports `EstimatedSweepFee = 0` for a set of one UTXO. -/
theorem EstimateSweepFee_product_overflow :
    ((2 : Nat) ^ 63 < 2 ^ 64 ∧
      btc.EstimateSweepFee 1 1 (2 ^ 63) = 0 ∧
      btc.EstimateSweepFee 1 1 (2 ^ 63) ≠ (1 * 148 + 1 * 34 + 10) * 2 ^ 63) ∧
    (hugeFeeRate.UTXOs.length = 1 ∧ hugeFeeRate.FeeRateSatVB < 2 ^ 64 ∧
      (score.Compute hugeFeeRate).EstimatedSweepFee = 0 ∧
      (score.Compute hugeFeeRate).EstimatedSweepFee ≠
        (1 * 148 + 44) * hugeFeeRate.FeeRateSatVB) := by
  decide

/-- C8, amended: `btc.EstimateSweepFee(inputs, outputs, rate)` is 0 when a count is
non-positive, and otherwise equals `(inputs*148 + outputs*34 + 10) * rate` modulo
`2 ^ 64`, which is the product itself when the product is below `2 ^ 64`;
consequently `score.Compute` reports `((n*148 + 44) * FeeRateSatVB) mod 2 ^ 64` for
a set of `n >= 1` UTXOs and 0 for the empty set. -/
theorem EstimateSweepFee_spec (inp : score.Input) (i o : Int) (rate : Nat) :
    (i ≤ 0 ∨ o ≤ 0 → btc.EstimateSweepFee i o rate = 0) ∧
    (0 < i ∧ 0 < o → (btc.EstimateSweepFee i o rate : Int) =
      ((i * 148 + o * 34 + 10) * (rate : Int)) % 2 ^ 64) ∧
    (0 < i ∧ 0 < o ∧ (i * 148 + o * 34 + 10) * (rate : Int) < 2 ^ 64 →
      (btc.EstimateSweepFee i o rate : Int) = (i * 148 + o * 34 + 10) * (rate : Int)) ∧
    (inp.UTXOs = [] → (score.Compute inp).EstimatedSweepFee = 0) ∧
    (1 ≤ inp.UTXOs.length → (score.Compute inp).EstimatedSweepFee =
      ((inp.UTXOs.length * 148 + 44) * inp.FeeRateSatVB) % 2 ^ 64) ∧
    (1 ≤ inp.UTXOs.length ∧ (inp.UTXOs.length * 148 + 44) * inp.FeeRateSatVB < 2 ^ 64 →
      (score.Compute inp).EstimatedSweepFee =
        (inp.UTXOs.length * 148 + 44) * inp.FeeRateSatVB) := by
  have hfee : (score.Compute inp).EstimatedSweepFee =
      btc.EstimateSweepFee (inp.UTXOs.length : Int) 1 inp.FeeRateSatVB := rfl
  have hcomp : 1 ≤ inp.UTXOs.length → (score.Compute inp).EstimatedSweepFee =
      ((inp.UTXOs.length * 148 + 44) * inp.FeeRateSatVB) % 2 ^ 64 := by
    intro hlen
    have hpos : (0 : Int) < (inp.UTXOs.length : Int) := by omega
    have h := EstimateSweepFee_pos_eq (inp.UTXOs.length : Int) 1 inp.FeeRateSatVB hpos (by norm_num)
    rw [hfee]
    have h2 : ((inp.UTXOs.length : Int) * 148 + 1 * 34 + 10) * (inp.FeeRateSatVB : Int) % 2 ^ 64 =
        ((((inp.UTXOs.length * 148 + 44) * inp.FeeRateSatVB) % 2 ^ 64 : Nat) : Int) := by
      push_cast
      ring_nf
    rw [h2] at h
    exact Int.ofNat_inj.mp h
  refine ⟨EstimateSweepFee_nonpos i o rate, ?_, ?_, ?_, hcomp, ?_⟩
  · rintro ⟨hi, ho⟩
    exact EstimateSweepFee_pos_eq i o rate hi ho
  · rintro ⟨hi, ho, hlt⟩
    rw [EstimateSweepFee_pos_eq i o rate hi ho]
    exact Int.emod_eq_of_lt (mul_nonneg (by omega) (Int.natCast_nonneg _)) hlt
  · intro he
    rw [hfee, he]
    rfl
  · rintro ⟨hlen, hlt⟩
    rw [hcomp hlen]
    exact Nat.mod_eq_of_lt hlt

/-- Witness of the amended C8 on the scenario with 60 UTXOs at 10 sat/vB: the
estimate is `(60*148 + 44) * 10 = 89240`. -/
theorem EstimateSweepFee_spec_witness :
    (score.Compute scenario60).EstimatedSweepFee = 89240 :=
  ((EstimateSweepFee_spec scenario60 1 1 1).2.2.2.2.2 (by decide)).trans (by decide)

/-! ### The floating-point test of the sweep-ratio block -/

theorem roundHalfEven_gt_iff (n d c : Nat) (hd : 0 < d) (hc : c % 2 = 0) :
    c < float64.roundHalfEven n d ↔ (2 * c + 1) * d < 2 * n := by
  have hdm := Nat.div_add_mod n d
  have hr := Nat.mod_lt n hd
  have e : (2 * c + 1) * d = 2 * (d * c) + d := by ring
  rw [e]
  unfold float64.roundHalfEven
  simp only []
  generalize n / d = q at *
  generalize n % d = r at *
  rcases Nat.lt_trichotomy q c with h | h | h
  · have h1 : d * (q + 1) ≤ d * c := Nat.mul_le_mul_left d h
    rw [Nat.mul_add, Nat.mul_one] at h1
    split_ifs <;> omega
  · subst h
    split_ifs <;> omega
  · have h1 : d * (c + 1) ≤ d * q := Nat.mul_le_mul_left d h
    rw [Nat.mul_add, Nat.mul_one] at h1
    split_ifs <;> omega

theorem roundHalfEven_bounds (n d : Nat) :
    n / d ≤ float64.roundHalfEven n d ∧ float64.roundHalfEven n d ≤ n / d + 1 := by
  unfold float64.roundHalfEven
  simp only []
  split_ifs <;> omega


theorem divScaled_gt_const (a b : Nat) (hb : 0 < b) :
    float64.const005Scaled < float64.divScaled a b ↔ 14411518807585589 * b < a * 2 ^ 58 := by
  unfold float64.const005Scaled float64.divScaled
  simp only []
  have hQ1 : a * 2 ^ 120 / b * b ≤ a * 2 ^ 120 := Nat.div_mul_le_self _ _
  have hQ2 : a * 2 ^ 120 < (a * 2 ^ 120 / b + 1) * b :=
    (Nat.div_lt_iff_lt_mul hb).mp (Nat.lt_succ_self _)
  have hL2 : a * 2 ^ 120 / b < 2 ^ (Nat.log2 (a * 2 ^ 120 / b) + 1) := Nat.lt_log2_self
  have hL1 : a * 2 ^ 120 / b ≠ 0 → 2 ^ Nat.log2 (a * 2 ^ 120 / b) ≤ a * 2 ^ 120 / b :=
    Nat.log2_self_le
  have hL0 : a * 2 ^ 120 / b = 0 → Nat.log2 (a * 2 ^ 120 / b) = 0 := by
    intro h
    rw [h]
    simp
  have hm := roundHalfEven_bounds (a * 2 ^ 120) (b * 2 ^ (Nat.log2 (a * 2 ^ 120 / b) - 52))
  rw [← Nat.div_div_eq_div_mul] at hm
  generalize a * 2 ^ 120 / b = Q at *
  generalize Nat.log2 Q = L at *
  rcases Nat.lt_trichotomy (L - 52) 63 with hk | hk | hk
  · have hpk : 2 ^ (L - 52) ≤ 2 ^ 62 := Nat.pow_le_pow_right (by norm_num) (by omega)
    have hpL : 2 ^ (L + 1) ≤ 2 ^ 115 := Nat.pow_le_pow_right (by norm_num) (by omega)
    have h3 : Q / 2 ^ (L - 52) * 2 ^ (L - 52) ≤ Q := Nat.div_mul_le_self _ _
    have h4 : float64.roundHalfEven (a * 2 ^ 120) (b * 2 ^ (L - 52)) * 2 ^ (L - 52) ≤
        (Q / 2 ^ (L - 52) + 1) * 2 ^ (L - 52) := Nat.mul_le_mul_right _ hm.2
    rw [Nat.add_mul, Nat.one_mul] at h4
    have h5 : (Q + 1) * b ≤ 2 ^ 115 * b := Nat.mul_le_mul_right _ (by omega)
    constructor
    · intro h
      omega
    · intro h
      omega
  · rw [hk]
    have h := roundHalfEven_gt_iff (a * 2 ^ 120) (b * 2 ^ 63) 7205759403792794
      (Nat.mul_pos hb (by norm_num)) (by norm_num)
    constructor
    · intro h1
      have h2 : 7205759403792794 < float64.roundHalfEven (a * 2 ^ 120) (b * 2 ^ 63) := by omega
      have h3 := h.mp h2
      omega
    · intro h1
      have h2 : (2 * 7205759403792794 + 1) * (b * 2 ^ 63) < 2 * (a * 2 ^ 120) := by omega
      have h3 := h.mpr h2
      omega
  · have hQ0 : Q ≠ 0 := by
      intro h
      have := hL0 h
      omega
    have hL3 := hL1 hQ0
    have hpL : 2 ^ 116 ≤ 2 ^ L := Nat.pow_le_pow_right (by norm_num) (by omega)
    have hsplit : 2 ^ 52 * 2 ^ (L - 52) = 2 ^ L := by
      rw [← Nat.pow_add]
      congr 1
      omega
    have h3 : 2 ^ 52 ≤ Q / 2 ^ (L - 52) := by
      rw [Nat.le_div_iff_mul_le (Nat.pow_pos (by norm_num))]
      omega
    have h4 : 2 ^ 52 * 2 ^ (L - 52) ≤
        float64.roundHalfEven (a * 2 ^ 120) (b * 2 ^ (L - 52)) * 2 ^ (L - 52) :=
      Nat.mul_le_mul_right _ (le_trans h3 hm.1)
    have h5 : 2 ^ 116 * b ≤ Q * b := Nat.mul_le_mul_right _ (by omega)
    constructor
    · intro h
      omega
    · intro h
      omega

theorem ofUint64_of_lt (u : Nat) (h : u < 2 ^ 53) : float64.ofUint64 u = u := by
  unfold float64.ofUint64
  simp only [h, if_true]

theorem log2_eq_of_bounds (n k : Nat) (h1 : 2 ^ k ≤ n) (h2 : n < 2 ^ (k + 1)) :
    Nat.log2 n = k := by
  have hn : n ≠ 0 := by
    have : 0 < 2 ^ k := Nat.pow_pos (by norm_num)
    omega
  have h3 : k ≤ Nat.log2 n := (Nat.le_log2 hn).mpr h1
  have h4 : Nat.log2 n < k + 1 := (Nat.log2_lt hn).mpr h2
  omega

theorem ofUint64_of_bounds (u k : Nat) (h1 : 2 ^ (52 + k) ≤ u) (h2 : u < 2 ^ (53 + k))
    (hk : 1 ≤ k) : float64.ofUint64 u = float64.roundHalfEven u (2 ^ k) * 2 ^ k := by
  have hL : Nat.log2 u = 52 + k := log2_eq_of_bounds u (52 + k) h1 (by
    have e : 52 + k + 1 = 53 + k := by omega
    rw [e]
    exact h2)
  have hge : ¬ (u < 2 ^ 53) := by
    have : 2 ^ 53 ≤ 2 ^ (52 + k) := Nat.pow_le_pow_right (by norm_num) (by omega)
    omega
  have hk2 : 52 + k - 52 = k := by omega
  unfold float64.ofUint64
  simp only [hge, if_false, hL, hk2]

theorem ofUint64_pos (u : Nat) (h : 0 < u) : 0 < float64.ofUint64 u := by
  unfold float64.ofUint64
  by_cases hlt : u < 2 ^ 53
  · simp only [hlt, if_true]
    exact h
  · simp only [hlt, if_false]
    have hu : u ≠ 0 := by omega
    have hL := Nat.log2_self_le hu
    have hpk : 2 ^ (Nat.log2 u - 52) ≤ 2 ^ Nat.log2 u :=
      Nat.pow_le_pow_right (by norm_num) (by omega)
    have hpos : 0 < 2 ^ (Nat.log2 u - 52) := Nat.pow_pos (by norm_num)
    have hq : 1 ≤ u / 2 ^ (Nat.log2 u - 52) :=
      (Nat.le_div_iff_mul_le hpos).mpr (by omega)
    have hm := (roundHalfEven_bounds u (2 ^ (Nat.log2 u - 52))).1
    exact Nat.mul_pos (by omega) hpos

theorem quotGt005_iff (fee total : Nat) (ht : 0 < total) :
    float64.quotGt005 fee total = true ↔
      14411518807585589 * float64.ofUint64 total < float64.ofUint64 fee * 2 ^ 58 := by
  unfold float64.quotGt005
  rw [decide_eq_true_iff]
  exact divScaled_gt_const _ _ (ofUint64_pos total ht)

/-! ### The sweep-ratio block -/

theorem sweepStep_gt (fee total : Nat) (s : score.Acc) (hf : 0 < fee) (ht : 0 < total)
    (h : 14411518807585589 * float64.ofUint64 total < float64.ofUint64 fee * 2 ^ 58) :
    score.sweepStep fee total s =
      { s with score := s.score - 10, warnings := s.warnings ++ [expensiveSweepWarning] } := by
  have hq := (quotGt005_iff fee total ht).mpr h
  have hc : fee > 0 ∧ total > 0 := ⟨hf, ht⟩
  unfold score.sweepStep expensiveSweepWarning
  simp only [hc, hq, if_true, and_self]

theorem sweepStep_le (fee total : Nat) (s : score.Acc) (hf : 0 < fee) (ht : 0 < total)
    (h : float64.ofUint64 fee * 2 ^ 58 ≤ 14411518807585589 * float64.ofUint64 total) :
    score.sweepStep fee total s =
      { s with score := s.score + 5, notes := s.notes ++ [smallSweepNote] } := by
  have hq : ¬ (float64.quotGt005 fee total = true) := fun hq =>
    absurd ((quotGt005_iff fee total ht).mp hq) (by omega)
  have hc : fee > 0 ∧ total > 0 := ⟨hf, ht⟩
  unfold score.sweepStep smallSweepNote
  simp [hc, hq]

theorem sweepStep_zero (fee total : Nat) (s : score.Acc) (h : fee = 0 ∨ total = 0) :
    score.sweepStep fee total s = s := by
  have hc : ¬ (fee > 0 ∧ total > 0) := by omega
  unfold score.sweepStep
  simp only [hc, if_false]

theorem accBeforeSweep_score_range (utxos : List btc.UTXO) :
    20 ≤ (score.accBeforeSweep utxos).score ∧ (score.accBeforeSweep utxos).score ≤ 60 := by
  unfold score.accBeforeSweep
  rw [dustStep_score]
  have hd : dustDelta (score.CountDust utxos 1000) = -10 ∨
      dustDelta (score.CountDust utxos 1000) = 0 := by
    unfold dustDelta
    split_ifs
    · exact Or.inl rfl
    · exact Or.inr rfl
  have hc : (score.countStep (utxos.length : Int) score.initAcc).score = 40 ∨
      (score.countStep (utxos.length : Int) score.initAcc).score = 30 ∨
      (score.countStep (utxos.length : Int) score.initAcc).score = 60 := by
    unfold score.countStep score.initAcc
    split_ifs
    · exact Or.inl rfl
    · exact Or.inr (Or.inl rfl)
    · exact Or.inl rfl
    · exact Or.inr (Or.inr rfl)
  omega

theorem accBeforeSweep_no_sweep_message (utxos : List btc.UTXO) :
    expensiveSweepWarning ∉ (score.accBeforeSweep utxos).warnings ∧
    smallSweepNote ∉ (score.accBeforeSweep utxos).notes := by
  unfold score.accBeforeSweep score.dustStep score.countStep score.initAcc
    expensiveSweepWarning smallSweepNote
  constructor <;> split_ifs <;> decide

theorem clamp_of_mem (x : Int) (h0 : 0 ≤ x) (h1 : x ≤ 100) : clamp 0 100 x = x := by
  unfold clamp
  have h2 : ¬ (x < 0) := by omega
  have h3 : ¬ (100 < x) := by omega
  simp only [h2, h3, if_false]

theorem Compute_sweep_cases (inp : score.Input) :
    (0 < (score.Compute inp).EstimatedSweepFee ∧ 0 < (score.Compute inp).TotalBalanceSats ∧
      14411518807585589 * float64.ofUint64 (score.Compute inp).TotalBalanceSats <
        float64.ofUint64 (score.Compute inp).EstimatedSweepFee * 2 ^ 58 →
      (score.Compute inp).SovereigntyScore = (score.accBeforeSweep inp.UTXOs).score - 10 ∧
      (score.Compute inp).Warnings =
        (score.accBeforeSweep inp.UTXOs).warnings ++ [expensiveSweepWarning] ∧
      (score.Compute inp).Notes = (score.accBeforeSweep inp.UTXOs).notes ++
        ["Use fresh addresses for incoming payments to reduce address reuse.",
         "Be careful: consolidation can reduce privacy by linking UTXOs."]) ∧
    (0 < (score.Compute inp).EstimatedSweepFee ∧ 0 < (score.Compute inp).TotalBalanceSats ∧
      float64.ofUint64 (score.Compute inp).EstimatedSweepFee * 2 ^ 58 ≤
        14411518807585589 * float64.ofUint64 (score.Compute inp).TotalBalanceSats →
      (score.Compute inp).SovereigntyScore = (score.accBeforeSweep inp.UTXOs).score + 5 ∧
      (score.Compute inp).Warnings = (score.accBeforeSweep inp.UTXOs).warnings ∧
      (score.Compute inp).Notes = (score.accBeforeSweep inp.UTXOs).notes ++ [smallSweepNote] ++
        ["Use fresh addresses for incoming payments to reduce address reuse.",
         "Be careful: consolidation can reduce privacy by linking UTXOs."]) ∧
    ((score.Compute inp).EstimatedSweepFee = 0 ∨ (score.Compute inp).TotalBalanceSats = 0 →
      (score.Compute inp).SovereigntyScore = (score.accBeforeSweep inp.UTXOs).score ∧
      (score.Compute inp).Warnings = (score.accBeforeSweep inp.UTXOs).warnings ∧
      (score.Compute inp).Notes = (score.accBeforeSweep inp.UTXOs).notes ++
        ["Use fresh addresses for incoming payments to reduce address reuse.",
         "Be careful: consolidation can reduce privacy by linking UTXOs."]) := by
  have hr := accBeforeSweep_score_range inp.UTXOs
  refine ⟨?_, ?_, ?_⟩
  · rintro ⟨hf, ht, h⟩
    rw [Compute_score_eq, Compute_warnings_eq, Compute_notes_eq, sweepStep_gt _ _ _ hf ht h]
    exact ⟨clamp_of_mem _ (by simp only; omega) (by simp only; omega), rfl, rfl⟩
  · rintro ⟨hf, ht, h⟩
    rw [Compute_score_eq, Compute_warnings_eq, Compute_notes_eq, sweepStep_le _ _ _ hf ht h]
    exact ⟨clamp_of_mem _ (by simp only; omega) (by simp only; omega), rfl, rfl⟩
  · intro h
    rw [Compute_score_eq, Compute_warnings_eq, Compute_notes_eq, sweepStep_zero _ _ _ h]
    exact ⟨clamp_of_mem _ (by omega) (by omega), rfl, rfl⟩

theorem fixedNotes_no_sweep_note :
    smallSweepNote ∉ ["Use fresh addresses for incoming payments to reduce address reuse.",
      "Be careful: consolidation can reduce privacy by linking UTXOs."] := by
  decide

/-- C9, as stated, fails on the exact ratio.  For one UTXO of 38399999999999999 at
fee rate `10 ^ 13` the fee is more than 5% of the balance (`20 * fee > balance`), yet
the adjustment is +5 with the note and without the warning.  For one UTXO of
13094989503594351360 at fee rate 3410153516561029 the fee is exactly 5% of the
balance (`20 * fee = balance`), yet the adjustment is -10 with the warning and
without the note. -/
theorem sweep_ratio_not_exact :
    ((score.Compute ratioAboveInput).EstimatedSweepFee = 1920000000000000 ∧
      (score.Compute ratioAboveInput).TotalBalanceSats = 38399999999999999 ∧
      (score.Compute ratioAboveInput).TotalBalanceSats <
        20 * (score.Compute ratioAboveInput).EstimatedSweepFee ∧
      (score.Compute ratioAboveInput).SovereigntyScore =
        (score.accBeforeSweep ratioAboveInput.UTXOs).score + 5 ∧
      expensiveSweepWarning ∉ (score.Compute ratioAboveInput).Warnings ∧
      smallSweepNote ∈ (score.Compute ratioAboveInput).Notes) ∧
    ((score.Compute ratioExactInput).EstimatedSweepFee = 654749475179717568 ∧
      (score.Compute ratioExactInput).TotalBalanceSats = 13094989503594351360 ∧
      20 * (score.Compute ratioExactInput).EstimatedSweepFee =
        (score.Compute ratioExactInput).TotalBalanceSats ∧
      (score.Compute ratioExactInput).SovereigntyScore =
        (score.accBeforeSweep ratioExactInput.UTXOs).score - 10 ∧
      expensiveSweepWarning ∈ (score.Compute ratioExactInput).Warnings ∧
      smallSweepNote ∉ (score.Compute ratioExactInput).Notes) := by
  have hA := (Compute_sweep_cases ratioAboveInput).2.1
  have hB := (Compute_sweep_cases ratioExactInput).1
  have hmA := accBeforeSweep_no_sweep_message ratioAboveInput.UTXOs
  have hmB := accBeforeSweep_no_sweep_message ratioExactInput.UTXOs
  have hfA : (score.Compute ratioAboveInput).EstimatedSweepFee = 1920000000000000 := by decide
  have htA : (score.Compute ratioAboveInput).TotalBalanceSats = 38399999999999999 := by decide
  have hfB : (score.Compute ratioExactInput).EstimatedSweepFee = 654749475179717568 := by decide
  have htB : (score.Compute ratioExactInput).TotalBalanceSats = 13094989503594351360 := by
    decide
  have e1 : float64.ofUint64 1920000000000000 = 1920000000000000 :=
    ofUint64_of_lt _ (by norm_num)
  have e2 : float64.ofUint64 38399999999999999 = 38400000000000000 := by
    rw [ofUint64_of_bounds _ 3 (by norm_num) (by norm_num) (by norm_num)]
    decide
  have e3 : float64.ofUint64 654749475179717568 = 654749475179717632 := by
    rw [ofUint64_of_bounds _ 7 (by norm_num) (by norm_num) (by norm_num)]
    decide
  have e4 : float64.ofUint64 13094989503594351360 = 13094989503594350592 := by
    rw [ofUint64_of_bounds _ 11 (by norm_num) (by norm_num) (by norm_num)]
    decide
  rw [hfA, htA, e1, e2] at hA
  rw [hfB, htB, e3, e4] at hB
  obtain ⟨a1, a2, a3⟩ := hA ⟨by norm_num, by norm_num, by norm_num⟩
  obtain ⟨b1, b2, b3⟩ := hB ⟨by norm_num, by norm_num, by norm_num⟩
  refine ⟨⟨hfA, htA, ?_, a1, ?_, ?_⟩, ⟨hfB, htB, ?_, b1, ?_, ?_⟩⟩
  · rw [hfA, htA]
    norm_num
  · rw [a2]
    exact hmA.1
  · rw [a3]
    simp
  · rw [hfB, htB]
  · rw [b2]
    simp
  · rw [b3]
    intro hmem
    rcases List.mem_append.mp hmem with h | h
    · exact hmB.2 h
    · exact fixedNotes_no_sweep_note h

/-- C9, amended: the comparison of the sweep-ratio block is made in IEEE-754
binary64.  With fee > 0 and balance > 0, the test
`float64(fee) / float64(balance) > 0.05` holds exactly when
`14411518807585589 * float64(balance) < 2 ^ 58 * float64(fee)`, where `float64(x)` is
`x` rounded to 53 significant bits (`x` itself below `2 ^ 53`).  When it holds the
adjustment is -10 and the warning is present (the note absent); otherwise the
adjustment is +5 and the note is present (the warning absent).  In particular
a fee and a balance below `2 ^ 53` with `fee / balance <= 0.05` (exactly 5%
included) give +5.  When the fee is 0 or the balance is 0 neither message
appears. -/
theorem Compute_sweep_ratio (inp : score.Input) :
    (0 < (score.Compute inp).TotalBalanceSats →
      (float64.quotGt005 (score.Compute inp).EstimatedSweepFee
          (score.Compute inp).TotalBalanceSats = true ↔
        14411518807585589 * float64.ofUint64 (score.Compute inp).TotalBalanceSats <
          float64.ofUint64 (score.Compute inp).EstimatedSweepFee * 2 ^ 58)) ∧
    (0 < (score.Compute inp).EstimatedSweepFee ∧ 0 < (score.Compute inp).TotalBalanceSats ∧
      14411518807585589 * float64.ofUint64 (score.Compute inp).TotalBalanceSats <
        float64.ofUint64 (score.Compute inp).EstimatedSweepFee * 2 ^ 58 →
      (score.Compute inp).SovereigntyScore = (score.accBeforeSweep inp.UTXOs).score - 10 ∧
      expensiveSweepWarning ∈ (score.Compute inp).Warnings ∧
      smallSweepNote ∉ (score.Compute inp).Notes) ∧
    (0 < (score.Compute inp).EstimatedSweepFee ∧ 0 < (score.Compute inp).TotalBalanceSats ∧
      float64.ofUint64 (score.Compute inp).EstimatedSweepFee * 2 ^ 58 ≤
        14411518807585589 * float64.ofUint64 (score.Compute inp).TotalBalanceSats →
      (score.Compute inp).SovereigntyScore = (score.accBeforeSweep inp.UTXOs).score + 5 ∧
      smallSweepNote ∈ (score.Compute inp).Notes ∧
      expensiveSweepWarning ∉ (score.Compute inp).Warnings) ∧
    ((score.Compute inp).EstimatedSweepFee = 0 ∨ (score.Compute inp).TotalBalanceSats = 0 →
      (score.Compute inp).SovereigntyScore = (score.accBeforeSweep inp.UTXOs).score ∧
      expensiveSweepWarning ∉ (score.Compute inp).Warnings ∧
      smallSweepNote ∉ (score.Compute inp).Notes) ∧
    ((score.Compute inp).EstimatedSweepFee < 2 ^ 53 →
      float64.ofUint64 (score.Compute inp).EstimatedSweepFee =
        (score.Compute inp).EstimatedSweepFee) ∧
    ((score.Compute inp).TotalBalanceSats < 2 ^ 53 →
      float64.ofUint64 (score.Compute inp).TotalBalanceSats =
        (score.Compute inp).TotalBalanceSats) ∧
    (0 < (score.Compute inp).EstimatedSweepFee ∧
      (score.Compute inp).EstimatedSweepFee < 2 ^ 53 ∧
      (score.Compute inp).TotalBalanceSats < 2 ^ 53 ∧
      20 * (score.Compute inp).EstimatedSweepFee ≤ (score.Compute inp).TotalBalanceSats →
      (score.Compute inp).SovereigntyScore = (score.accBeforeSweep inp.UTXOs).score + 5 ∧
      smallSweepNote ∈ (score.Compute inp).Notes ∧
      expensiveSweepWarning ∉ (score.Compute inp).Warnings) := by
  have hc := Compute_sweep_cases inp
  have hm := accBeforeSweep_no_sweep_message inp.UTXOs
  have notW : (score.Compute inp).Warnings = (score.accBeforeSweep inp.UTXOs).warnings →
      expensiveSweepWarning ∉ (score.Compute inp).Warnings := by
    intro h
    rw [h]
    exact hm.1
  have notN : (score.Compute inp).Notes = (score.accBeforeSweep inp.UTXOs).notes ++
      ["Use fresh addresses for incoming payments to reduce address reuse.",
       "Be careful: consolidation can reduce privacy by linking UTXOs."] →
      smallSweepNote ∉ (score.Compute inp).Notes := by
    intro h hmem
    rw [h] at hmem
    rcases List.mem_append.mp hmem with h' | h'
    · exact hm.2 h'
    · exact fixedNotes_no_sweep_note h'
  have le_case : 0 < (score.Compute inp).EstimatedSweepFee ∧
      0 < (score.Compute inp).TotalBalanceSats ∧
      float64.ofUint64 (score.Compute inp).EstimatedSweepFee * 2 ^ 58 ≤
        14411518807585589 * float64.ofUint64 (score.Compute inp).TotalBalanceSats →
      (score.Compute inp).SovereigntyScore = (score.accBeforeSweep inp.UTXOs).score + 5 ∧
      smallSweepNote ∈ (score.Compute inp).Notes ∧
      expensiveSweepWarning ∉ (score.Compute inp).Warnings := by
    intro h
    obtain ⟨h1, h2, h3⟩ := hc.2.1 h
    refine ⟨h1, ?_, notW h2⟩
    rw [h3]
    simp
  refine ⟨fun ht => quotGt005_iff _ _ ht, ?_, le_case, ?_, ofUint64_of_lt _, ofUint64_of_lt _, ?_⟩
  · intro h
    obtain ⟨h1, h2, h3⟩ := hc.1 h
    refine ⟨h1, ?_, notN h3⟩
    rw [h2]
    simp
  · intro h
    obtain ⟨h1, h2, h3⟩ := hc.2.2 h
    exact ⟨h1, notW h2, notN h3⟩
  · rintro ⟨hf, hf53, ht53, hle⟩
    apply le_case
    rw [ofUint64_of_lt _ hf53, ofUint64_of_lt _ ht53]
    refine ⟨hf, by omega, by omega⟩

/-- Witness of the amended C9 on the scenario with 60 UTXOs at 10 sat/vB: the fee
89240 is below 5% of the balance 2752500, the score moves from 20 to 25. -/
theorem Compute_sweep_ratio_witness :
    (score.Compute scenario60).SovereigntyScore = 25 ∧
      smallSweepNote ∈ (score.Compute scenario60).Notes ∧
      expensiveSweepWarning ∉ (score.Compute scenario60).Warnings :=
  have h := (Compute_sweep_ratio scenario60).2.2.1 (by decide)
  ⟨h.1.trans (by decide), h.2.1, h.2.2⟩

/-! ### The empty UTXO set -/

/-- C11: for every address, network, mode and fee rate, `score.Compute` on the empty
UTXO sequence returns `NumUTXOs = 0`, `DustUTXOs = 0`, `TotalBalanceSats = 0`,
`EstimatedSweepFee = 0`, `SovereigntyScore = 40`, the single warning "No UTXOs
found for this address." and exactly the two fixed notes, in that order. -/
theorem Compute_empty (address network mode : String) (feeRate : Nat) :
    (score.Compute ⟨address, network, mode, [], feeRate⟩).NumUTXOs = 0 ∧
    (score.Compute ⟨address, network, mode, [], feeRate⟩).DustUTXOs = 0 ∧
    (score.Compute ⟨address, network, mode, [], feeRate⟩).TotalBalanceSats = 0 ∧
    (score.Compute ⟨address, network, mode, [], feeRate⟩).EstimatedSweepFee = 0 ∧
    (score.Compute ⟨address, network, mode, [], feeRate⟩).SovereigntyScore = 40 ∧
    (score.Compute ⟨address, network, mode, [], feeRate⟩).Warnings =
      ["No UTXOs found for this address."] ∧
    (score.Compute ⟨address, network, mode, [], feeRate⟩).Notes =
      ["Use fresh addresses for incoming payments to reduce address reuse.",
       "Be careful: consolidation can reduce privacy by linking UTXOs."] ∧
    score.Compute ⟨address, network, mode, [], feeRate⟩ =
      { Address := address, Network := network, Mode := mode,
        TotalBalanceSats := 0, NumUTXOs := 0, DustUTXOs := 0, EstimatedSweepFee := 0,
        FeeRateSatVB := feeRate, SovereigntyScore := 40,
        Warnings := ["No UTXOs found for this address."],
        Notes := ["Use fresh addresses for incoming payments to reduce address reuse.",
          "Be careful: consolidation can reduce privacy by linking UTXOs."],
        UTXOs := [] } := by
  refine ⟨rfl, rfl, rfl, rfl, rfl, rfl, rfl, rfl⟩

/-! ### The clamp never bites -/

theorem accBeforeClamp_score_range (inp : score.Input) :
    10 ≤ (accBeforeClamp inp).score ∧ (accBeforeClamp inp).score ≤ 65 := by
  have hr := accBeforeSweep_score_range inp.UTXOs
  have hs := sweepStep_branch (btc.EstimateSweepFee (inp.UTXOs.length : Int) 1 inp.FeeRateSatVB)
    (score.sumValues inp.UTXOs) (score.accBeforeSweep inp.UTXOs)
  unfold SweepBranch at hs
  unfold accBeforeClamp
  by_cases h : btc.EstimateSweepFee (inp.UTXOs.length : Int) 1 inp.FeeRateSatVB = 0 ∨
      score.sumValues inp.UTXOs = 0
  · have := hs.1 h
    omega
  · have := hs.2 h
    omega

theorem Compute_score_eq_clampStep (inp : score.Input) :
    (score.Compute inp).SovereigntyScore = (score.clampStep (accBeforeClamp inp)).score := rfl

/-- C14: for every input to `score.Compute` the score before clamping lies between
10 and 65, so neither clamping block changes it and the returned
`SovereigntyScore` is in [10, 65], whatever the UTXO count; both bounds are
reached (51 dust UTXOs with an expensive sweep give 50-20-10-10 = 10, one
large UTXO with a cheap sweep gives 50+10+5 = 65). -/
theorem Compute_score_unclamped (inp : score.Input) :
    (10 ≤ (accBeforeClamp inp).score ∧ (accBeforeClamp inp).score ≤ 65) ∧
    (¬ ((accBeforeClamp inp).score < 0) ∧ ¬ ((accBeforeClamp inp).score > 100)) ∧
    score.clampStep (accBeforeClamp inp) = accBeforeClamp inp ∧
    (score.Compute inp).SovereigntyScore = (accBeforeClamp inp).score ∧
    (10 ≤ (score.Compute inp).SovereigntyScore ∧ (score.Compute inp).SovereigntyScore ≤ 65) ∧
    (score.Compute worstCaseInput).SovereigntyScore = 10 ∧
    (score.Compute bestCaseInput).SovereigntyScore = 65 := by
  have hr := accBeforeClamp_score_range inp
  have h0 : ¬ ((accBeforeClamp inp).score < 0) := by omega
  have h1 : ¬ ((accBeforeClamp inp).score > 100) := by omega
  have hc : score.clampStep (accBeforeClamp inp) = accBeforeClamp inp := by
    unfold score.clampStep
    simp only [h0, h1, if_false]
  have hs : (score.Compute inp).SovereigntyScore = (accBeforeClamp inp).score := by
    rw [Compute_score_eq_clampStep, hc]
  have hw : (score.Compute worstCaseInput).SovereigntyScore = 10 :=
    ((Compute_sweep_cases worstCaseInput).1 (by decide)).1.trans (by decide)
  have hb : (score.Compute bestCaseInput).SovereigntyScore = 65 :=
    ((Compute_sweep_cases bestCaseInput).2.1 (by decide)).1.trans (by decide)
  exact ⟨hr, ⟨h0, h1⟩, hc, hs, by rw [hs]; exact hr, hw, hb⟩

/-! ### Readiness flag and readiness score -/

/-- C15: the `Readiness` returned by `ln.ComputeReadiness` has `Ready = true` if and
only if `Score >= 85`: a ready node scores 85 or 100, a node that is not ready
scores at most 80. -/
theorem readiness_flag_matches_score (info : ln.GetInfoResponse) :
    ((ln.ComputeReadiness info).Ready = true ↔ 85 ≤ (ln.ComputeReadiness info).Score) ∧
    ((ln.ComputeReadiness info).Ready = true →
      (ln.ComputeReadiness info).Score = 85 ∨ (ln.ComputeReadiness info).Score = 100) ∧
    ((ln.ComputeReadiness info).Ready = false → (ln.ComputeReadiness info).Score ≤ 80) := by
  unfold ln.ComputeReadiness
  by_cases h1 : info.SyncedToChain = true <;> by_cases h2 : info.NumPeers > 0 <;>
    by_cases h3 : info.NumActiveChannels > 0 <;> simp [h1, h2, h3]

/-- Witness of C15: a synced node with peers and no channel is ready and scores 85. -/
theorem readiness_flag_matches_score_witness :
    (ln.ComputeReadiness syncedNoChannels).Ready = true ∧
      (ln.ComputeReadiness syncedNoChannels).Score = 85 :=
  ⟨by decide, ((readiness_flag_matches_score syncedNoChannels).2.1 (by decide)).resolve_right
    (by decide)⟩

/-! ### Normalization of node records -/

theorem foldl_append_singleton (items : List btc.ListUnspentItem) (acc : List btc.UTXO) :
    items.foldl (fun out it => out ++ [btc.utxoOfUnspent it]) acc =
      acc ++ items.map btc.utxoOfUnspent := by
  induction items generalizing acc with
  | nil => simp
  | cons x xs ih =>
    rw [List.foldl_cons, ih]
    simp

theorem normalizeLoop_eq_map (items : List btc.ListUnspentItem) :
    btc.normalizeLoop items = items.map btc.utxoOfUnspent := by
  unfold btc.normalizeLoop
  rw [foldl_append_singleton]
  simp

/-- C13, as stated, fails on the provenance tag: the UTXO built from a node record
carries the tag "bitcoind", not "node". -/
theorem normalizeLoop_tag_not_node :
    (btc.normalizeLoop [sampleUnspent]).map (fun u => u.Source) = ["bitcoind"] ∧
    (btc.normalizeLoop [sampleUnspent]).map (fun u => u.Source) ≠ ["node"] := by
  decide

/-- C13, amended: for every list of `listunspent` records the loop of
`UTXOsForAddress` yields a UTXO sequence of the same length and order in which the
i-th UTXO copies the i-th record's transaction id and output index, has
`Confirmed = (Confirmations > 0)`, has `BlockHeight = 0`, and carries the
provenance tag "bitcoind". -/
theorem normalizeLoop_spec (items : List btc.ListUnspentItem) (i : Nat)
    (h : i < items.length) (h' : i < (btc.normalizeLoop items).length) :
    btc.UTXOsForAddress (.ok items) = .ok (btc.normalizeLoop items) ∧
    (btc.normalizeLoop items).length = items.length ∧
    ((btc.normalizeLoop items).get ⟨i, h'⟩).TxID = (items.get ⟨i, h⟩).TxID ∧
    ((btc.normalizeLoop items).get ⟨i, h'⟩).Vout = (items.get ⟨i, h⟩).Vout ∧
    (((btc.normalizeLoop items).get ⟨i, h'⟩).Confirmed = true ↔
      0 < (items.get ⟨i, h⟩).Confirmations) ∧
    ((btc.normalizeLoop items).get ⟨i, h'⟩).BlockHeight = 0 ∧
    ((btc.normalizeLoop items).get ⟨i, h'⟩).Source = "bitcoind" := by
  have hget : (btc.normalizeLoop items).get ⟨i, h'⟩ = btc.utxoOfUnspent (items.get ⟨i, h⟩) := by
    simp [normalizeLoop_eq_map]
  refine ⟨rfl, ?_, ?_, ?_, ?_, ?_, ?_⟩
  · rw [normalizeLoop_eq_map, List.length_map]
  · rw [hget]
    rfl
  · rw [hget]
    rfl
  · rw [hget]
    simp [btc.utxoOfUnspent]
  · rw [hget]
    rfl
  · rw [hget]
    rfl

/-- Witness of the amended C13: in a list of two records the second UTXO (index 1)
copies the unconfirmed record. -/
theorem normalizeLoop_spec_witness :
    ((btc.normalizeLoop [sampleUnspent, unconfirmedUnspent]).get ⟨1, by decide⟩).TxID =
        "0e3e23" ∧
      ((btc.normalizeLoop [sampleUnspent, unconfirmedUnspent]).get ⟨1, by decide⟩).Source =
        "bitcoind" :=
  have h := normalizeLoop_spec [sampleUnspent, unconfirmedUnspent] 1 (by decide) (by decide)
  ⟨h.2.2.1, h.2.2.2.2.2.2⟩

/-! ### The summary line -/

theorem Sprintf_ready (r : Int) :
    fmt.Sprintf "LN: READY (%d/100)" [.int r] = "LN: READY (" ++ toString r ++ "/100)" := by
  apply String.ext
  simp [fmt.Sprintf, fmt.sprintfCore, fmt.formatArg, String.data_append]

theorem Sprintf_not_ready (r : Int) :
    fmt.Sprintf "LN: NOT READY (%d/100)" [.int r] =
      "LN: NOT READY (" ++ toString r ++ "/100)" := by
  apply String.ext
  simp [fmt.Sprintf, fmt.sprintfCore, fmt.formatArg, String.data_append]

theorem Sprintf_summary (S N D : Int) (F : Nat) (planPart lnPart : String) :
    fmt.Sprintf "Score %d/100 • %d UTXOs (%d dust) • Fee %d sat/vB • %s • %s"
        [.int S, .int N, .int D, .uint F, .str planPart, .str lnPart] =
      "Score " ++ toString S ++ "/100 • " ++ toString N ++ " UTXOs (" ++ toString D ++
        " dust) • Fee " ++ toString F ++ " sat/vB • " ++ planPart ++ " • " ++ lnPart := by
  apply String.ext
  simp [fmt.Sprintf, fmt.sprintfCore, fmt.formatArg, String.data_append]

theorem sovereigntySummary_eq (onchain : score.Result) (plan : planner.ConsolidationPlan)
    (lnReady : Option ln.Readiness) :
    api.sovereigntySummary onchain plan lnReady =
      summaryTemplate onchain.SovereigntyScore onchain.NumUTXOs onchain.DustUTXOs
        onchain.FeeRateSatVB (planWord plan) (lnWordWithScore lnReady) := by
  unfold api.sovereigntySummary summaryTemplate planWord lnWordWithScore
  simp only [Sprintf_summary]
  apply String.ext
  cases lnReady with
  | none =>
    by_cases hp : plan.Recommended = true <;> simp [hp, String.data_append]
  | some r =>
    by_cases hp : plan.Recommended = true <;> by_cases hr : r.Ready = true <;>
      simp [hp, hr, Sprintf_ready, Sprintf_not_ready, String.data_append]

/-- C12, as stated, fails for a Readiness that is present and ready: the summary
ends in "LN: READY (85/100)", not in "LN: READY". -/
theorem sovereigntySummary_ready_shows_score :
    (ln.ComputeReadiness syncedNoChannels).Ready = true ∧
    api.sovereigntySummary sampleResult (planner.Decide ⟨1, 0, 10, 5⟩)
        (some (ln.ComputeReadiness syncedNoChannels)) =
      "Score 65/100 • 1 UTXOs (0 dust) • Fee 10 sat/vB • Plan: WAIT • LN: READY (85/100)" ∧
    summaryTemplate sampleResult.SovereigntyScore sampleResult.NumUTXOs sampleResult.DustUTXOs
        sampleResult.FeeRateSatVB (planWord (planner.Decide ⟨1, 0, 10, 5⟩))
        (lnWordOfSpec (some (ln.ComputeReadiness syncedNoChannels))) =
      "Score 65/100 • 1 UTXOs (0 dust) • Fee 10 sat/vB • Plan: WAIT • LN: READY" ∧
    api.sovereigntySummary sampleResult (planner.Decide ⟨1, 0, 10, 5⟩)
        (some (ln.ComputeReadiness syncedNoChannels)) ≠
      summaryTemplate sampleResult.SovereigntyScore sampleResult.NumUTXOs
        sampleResult.DustUTXOs sampleResult.FeeRateSatVB
        (planWord (planner.Decide ⟨1, 0, 10, 5⟩))
        (lnWordOfSpec (some (ln.ComputeReadiness syncedNoChannels))) := by
  decide

/-- C12, amended: the summary produced by `sovereigntySummary` is exactly
"Score S/100 • N UTXOs (D dust) • Fee F sat/vB • Plan: P • LN: L" with S, N, D, F
the result's score, UTXO count, dust count and fee rate in decimal; P is
"CONSOLIDATE" if the plan is recommended and "WAIT" otherwise; L is "n/a" when the
Readiness is absent, "READY (R/100)" when it is present and ready, and
"NOT READY (R/100)" when it is present and not ready, R being the readiness
score. -/
theorem sovereigntySummary_spec (onchain : score.Result) (plan : planner.ConsolidationPlan)
    (lnReady : Option ln.Readiness) (r : ln.Readiness) :
    api.sovereigntySummary onchain plan lnReady =
      "Score " ++ toString onchain.SovereigntyScore ++ "/100 • " ++
        toString onchain.NumUTXOs ++ " UTXOs (" ++ toString onchain.DustUTXOs ++
        " dust) • Fee " ++ toString onchain.FeeRateSatVB ++ " sat/vB • Plan: " ++
        planWord plan ++ " • LN: " ++ lnWordWithScore lnReady ∧
    (planWord plan = if plan.Recommended = true then "CONSOLIDATE" else "WAIT") ∧
    lnWordWithScore none = "n/a" ∧
    (lnWordWithScore (some r) =
      if r.Ready = true then "READY (" ++ toString r.Score ++ "/100)"
      else "NOT READY (" ++ toString r.Score ++ "/100)") ∧
    api.sovereigntySummary sampleResult (planner.Decide ⟨15, 0, 2, 5⟩) none =
      "Score 65/100 • 1 UTXOs (0 dust) • Fee 10 sat/vB • Plan: CONSOLIDATE • LN: n/a" ∧
    api.sovereigntySummary sampleResult (planner.Decide ⟨1, 0, 10, 5⟩)
        (some (ln.ComputeReadiness { syncedNoChannels with NumPeers := 0 })) =
      "Score 65/100 • 1 UTXOs (0 dust) • Fee 10 sat/vB • Plan: WAIT • LN: NOT READY (65/100)" :=
  ⟨sovereigntySummary_eq onchain plan lnReady, rfl, rfl, rfl, by decide, by decide⟩

end SovereignChecker
